import Mathlib

/-!
Verification of the auto-calibration ladder state machine (`src/calibration.js`,
object `CalibAuto` plus `saveCalibration`) and of the phase-aware feedback
classifier (`live-feedback.js`, class `LiveFeedback`) of the calivercel
repository.

Modelling conventions, used throughout:
* JavaScript numbers are modelled by `ℚ`.  All arithmetic performed by the
  modelled code paths (EMA smoothing, distances, speed ratios, averages,
  interpolation) is exact rational arithmetic.
* `Math.hypot`/`Math.sqrt` appear in the source only inside comparisons
  (`Math.sqrt(bestD2) <= hitRadius`, `dist/dt <= maxSpeedPerSec`); both sides
  are nonnegative, so the comparisons are embedded by their squared
  equivalents, which is exact.
* A landmark frame is a partial map from MediaPipe indices to points; an
  absent entry models a JavaScript `undefined` landmark.
* `performance.now()` is an input: the per-frame update receives the current
  timestamp `now` explicitly.
* `Math.atan2` (used only by `calculateAngle`) is transcendental, hence not
  rational; the feedback classifier is therefore parametrised by the folded
  angle function `angleAt`.  Every property proved below holds for every such
  function, and the source null-propagation wrapper is modelled exactly.
* DOM rendering, storage mechanics and the camera loop are out of scope,
  exactly as in the specification; `saveCalibration` is modelled as the pure
  construction of the persisted record, and `showFeedback` as the selection
  of the message/severity pair handed to it.
-/

/-- A 2D landmark point with a visibility confidence, as supplied by the pose
model (`{x, y, visibility}`). -/
structure Point2D where
  x : ℚ
  y : ℚ
  visibility : ℚ
deriving DecidableEq

/-- A landmark frame: partial map from MediaPipe body indices to points. -/
abbrev Landmarks := Nat → Option Point2D

/-- `clamp01` from the source: clamp a finite number into [0,1]. -/
def clamp01 (v : ℚ) : ℚ := max 0 (min 1 v)

/-- `clamp01` applied to a possibly-undefined value: the source maps a
non-finite argument (for example `undefined` coerced to `NaN`) to 0.5 before
clamping. -/
def clamp01opt (v : Option ℚ) : ℚ := clamp01 (v.getD (1/2))

/-- The visibility of a possibly-absent landmark, `pt?.visibility ?? 0`. -/
def visOf (p : Option Point2D) : ℚ := (p.map Point2D.visibility).getD 0

/-- One step of `V2.ema` as called by `update` (the `next` argument is always
present there; the source keeps `next.visibility ?? 1`, and points in the
model always carry their visibility). -/
def emaStep (prev : Option Point2D) (next : Point2D) (a : ℚ) : Point2D :=
  match prev with
  | none => next
  | some p => ⟨p.x + a * (next.x - p.x), p.y + a * (next.y - p.y), next.visibility⟩

/-- Elapsed seconds since the previous frame:
`grid._lastTs ? (now - grid._lastTs) / 1000 : 0`.  A stored timestamp of `0`
is falsy in JavaScript, hence also yields `0`. -/
def jsDt (lastTs : Option ℚ) (now : ℚ) : ℚ :=
  match lastTs with
  | none => 0
  | some t => if t = 0 then 0 else (now - t) / 1000

/-- Whether the raw speed `V2.dist(prev, cur) / dt` is at most `m`
(`spd <= grid.maxSpeedPerSec`).  The speed is `0` when there is no previous
smoothed point or `dt ≤ 0`.  The square-distance form is exactly equivalent
to the source comparison because both sides are nonnegative. -/
def speedLE (prev : Option Point2D) (cur : Point2D) (dt m : ℚ) : Bool :=
  match prev with
  | none => if 0 ≤ m then true else false
  | some p =>
      if 0 < dt then
        if 0 ≤ m ∧ (cur.x - p.x) ^ 2 + (cur.y - p.y) ^ 2 ≤ (m * dt) ^ 2 then true else false
      else if 0 ≤ m then true else false

/-- Squared distance from the point `(x, y)` to the rung `(laneX, yy)`, the
`d2` of `_hitIndex`. -/
def d2At (x y laneX yy : ℚ) : ℚ := (x - laneX) ^ 2 + (y - yy) ^ 2

/-- The scan loop of `_hitIndex`: running pair of best index and best squared
distance (the accumulator `none` is the initial `best = null, bestD2 = ∞`). -/
def hitScan (x y laneX : ℚ) : List ℚ → Nat → Option (Nat × ℚ) → Option (Nat × ℚ)
  | [], _, acc => acc
  | yy :: rest, i, acc =>
      let acc' :=
        match acc with
        | none => some (i, d2At x y laneX yy)
        | some bd => if d2At x y laneX yy < bd.2 then some (i, d2At x y laneX yy) else acc
      hitScan x y laneX rest (i + 1) acc'

/-- `CalibAuto._hitIndex`: nearest rung by full squared distance, reported
(1-based) only when `Math.sqrt(bestD2) <= hitRadius`. -/
def hitIndex (yList : List ℚ) (hitRadius x y laneX : ℚ) : Option Nat :=
  match hitScan x y laneX yList 0 none with
  | none => none
  | some bd => if 0 ≤ hitRadius ∧ bd.2 ≤ hitRadius ^ 2 then some (bd.1 + 1) else none

/-- The scan loop of `_nearestRung` (`best` starts at `1`, `bestAbs` at `∞`,
modelled by the accumulator `none`). -/
def nearestScan (y : ℚ) : List ℚ → Nat → Nat → Option ℚ → Nat
  | [], _, best, _ => best
  | yy :: rest, i, best, bestAbs =>
      match bestAbs with
      | none => nearestScan y rest (i + 1) (i + 1) (some |yy - y|)
      | some b =>
          if |yy - y| < b then nearestScan y rest (i + 1) (i + 1) (some |yy - y|)
          else nearestScan y rest (i + 1) best bestAbs

/-- `CalibAuto._nearestRung`: 1-based index of the rung whose y is nearest. -/
def nearestRung (yList : List ℚ) (y : ℚ) : Nat := nearestScan y yList 0 1 none

/-- The calibration step: which hand's calibration is outstanding. -/
inductive Step
  | left
  | right
  | done
deriving DecidableEq

/-- Rank of a step in the forward order `left → right → done`. -/
def Step.rank : Step → Nat
  | .left => 0
  | .right => 1
  | .done => 2

/-- The four rung-index fields present on the object literal returned by
`CalibAuto._status` but absent from the object literal returned on the saving
frame. -/
structure RungInfo where
  leftActive : Option Nat
  rightActive : Option Nat
  leftSaved : Option Nat
  rightSaved : Option Nat
deriving DecidableEq

/-- The per-frame status object returned by `CalibAuto.update`.  `rungs` is
`some _` exactly when the returned object carries the four rung-index fields
(`_status` does; the saving frame's literal does not). -/
structure Status where
  ok : Bool
  side : Step
  saved : Bool
  progress : ℚ
  countdown : ℚ
  step : Step
  rungs : Option RungInfo
deriving DecidableEq

/-- The mutable calibration session (`CalibAuto.create`'s object).  The
`laneFollow`, `laneAlpha`, `laneClamp` configuration fields and the
`_rom.maxReachLeft`/`_rom.maxReachRight` slots are never read by any modelled
code path (the latter two are written once at creation and never used) and
are omitted. -/
structure Grid where
  count : Nat
  yTop : ℚ
  yBottom : ℚ
  leftX : ℚ
  rightX : ℚ
  hitRadius : ℚ
  yList : List ℚ
  holdSeconds : ℚ
  kFrames : ℚ
  maxSpeedPerSec : ℚ
  minVis : ℚ
  needsHips : Bool
  step : Step
  leftActive : Option Nat
  rightActive : Option Nat
  leftSaved : Option Nat
  rightSaved : Option Nat
  lastTs : Option ℚ
  sL : Option Point2D
  sR : Option Point2D
  kOn : Nat
  hold : ℚ
  candidate : Option Nat
  neutralSamples : List ℚ
  maxRungL : Option Nat
  maxRungR : Option Nat
  minYLeft : ℚ
  minYRight : ℚ
deriving DecidableEq

/-- The configuration accepted by `CalibAuto.create`, with the source default
values. -/
structure Config where
  count : Nat := 8
  yTop : ℚ := 12/100
  yBottom : ℚ := 85/100
  leftX : ℚ := 18/100
  rightX : ℚ := 82/100
  hitRadius : ℚ := 12/100
  holdSeconds : ℚ := 5
  kFrames : ℚ := 6
  maxSpeedPerSec : ℚ := 60/100
  minVis : ℚ := 55/100
  needsHips : Bool := true
deriving DecidableEq

/-- `CalibAuto.create`: the fresh session.  The rung list is
`yBottom - (i / (count - 1)) * (yBottom - yTop)` for `i = 0 .. count-1`.
(For `count = 1` the source divides by zero producing `NaN`; rational
division by zero yields `0` instead.  All sessions considered below have
`count ≥ 2`, where the two agree.) -/
def create (c : Config) : Grid :=
  { count := c.count, yTop := c.yTop, yBottom := c.yBottom
    leftX := c.leftX, rightX := c.rightX, hitRadius := c.hitRadius
    yList := (List.range c.count).map
      (fun (i : ℕ) => c.yBottom - ((i : ℚ) / ((c.count : ℚ) - 1)) * (c.yBottom - c.yTop))
    holdSeconds := c.holdSeconds, kFrames := c.kFrames
    maxSpeedPerSec := c.maxSpeedPerSec, minVis := c.minVis, needsHips := c.needsHips
    step := Step.left
    leftActive := none, rightActive := none, leftSaved := none, rightSaved := none
    lastTs := none, sL := none, sR := none
    kOn := 0, hold := 0, candidate := none
    neutralSamples := [], maxRungL := none, maxRungR := none
    minYLeft := 1, minYRight := 1 }

/-- `CalibAuto._status`: clamps the progress into [0,1] and reports the
countdown together with both hands' active and saved rung indices of the
grid it receives. -/
def statusOf (g : Grid) (side : Step) (progress : ℚ) : Status :=
  let p := clamp01 progress
  { ok := true, side := side, saved := false, progress := p
    countdown := max 0 (g.holdSeconds * (1 - p)), step := g.step
    rungs := some { leftActive := g.leftActive, rightActive := g.rightActive
                    leftSaved := g.leftSaved, rightSaved := g.rightSaved } }

/-- Hip visibility test of `update`:
`(lm[23]?.visibility ?? 0) >= minVis && (lm[24]?.visibility ?? 0) >= minVis`. -/
def hipsVisOK (g : Grid) (lm : Landmarks) : Bool :=
  if g.minVis ≤ visOf (lm 23) ∧ g.minVis ≤ visOf (lm 24) then true else false

/-- Hand visibility test of `update` (`vOK(lm[15]) && vOK(lm[16])`, applied to
the two points already known to be present). -/
def handsVisOK (g : Grid) (p15 p16 : Point2D) : Bool :=
  if g.minVis ≤ p15.visibility ∧ g.minVis ≤ p16.visibility then true else false

/-- The `nrm` normalisation of `update`: optional horizontal mirror, then
clamp both coordinates into [0,1]. -/
def nrm (mir : Bool) (p : Point2D) : Point2D :=
  ⟨clamp01 (if mir then 1 - p.x else p.x), clamp01 p.y, p.visibility⟩

/-- The pure per-frame geometry computed by `update` once the preconditions
hold: normalised raw points, elapsed time, EMA-smoothed points, raw-speed
steadiness of each hand, and the hit-test result for each lane.  It reads
only session fields that the precondition branches of `update` do not
modify. -/
structure FrameData where
  wL : Point2D
  wR : Point2D
  dt : ℚ
  sL : Point2D
  sR : Point2D
  steadyL : Bool
  steadyR : Bool
  leftActive : Option Nat
  rightActive : Option Nat
deriving DecidableEq

/-- Computation of the `FrameData` for one frame, following the source order:
`wL`/`wR` by `nrm`, `dt` from the stored timestamp, EMA with factor 0.35
seeded by the first observed point, raw speed from the previous smoothed
point and the current raw point, then `_hitIndex` on the smoothed points. -/
def frameData (g : Grid) (p15 p16 : Point2D) (now : ℚ) (mir : Bool) : FrameData :=
  let wL := nrm mir p15
  let wR := nrm mir p16
  let dt := jsDt g.lastTs now
  let sL := emaStep g.sL wL (35/100)
  let sR := emaStep g.sR wR (35/100)
  { wL := wL, wR := wR, dt := dt, sL := sL, sR := sR
    steadyL := speedLE g.sL wL dt g.maxSpeedPerSec
    steadyR := speedLE g.sR wR dt g.maxSpeedPerSec
    leftActive := hitIndex g.yList g.hitRadius sL.x sL.y g.leftX
    rightActive := hitIndex g.yList g.hitRadius sR.x sR.y g.rightX }

/-- The active rung for the side being calibrated:
`side === "left" ? grid.leftActive : grid.rightActive`. -/
def activeFor (side : Step) (fd : FrameData) : Option Nat :=
  match side with
  | .left => fd.leftActive
  | _ => fd.rightActive

/-- The steadiness of the side being calibrated (`side === "left" ? spdL : spdR`
compared against `maxSpeedPerSec`). -/
def steadyFor (side : Step) (fd : FrameData) : Bool :=
  match side with
  | .left => fd.steadyL
  | _ => fd.steadyR

/-- The smoothed hand height of the side being calibrated
(`side === "left" ? sL.y : sR.y`). -/
def yHandFor (side : Step) (fd : FrameData) : ℚ :=
  match side with
  | .left => fd.sL.y
  | _ => fd.sR.y

/-- The hip sample pushed each non-aborted frame:
`Math.max(clamp01(lm[23]?.y), clamp01(lm[24]?.y))` (the `Number.isFinite`
guard of the source always holds after clamping). -/
def hipSample (lm : Landmarks) : ℚ :=
  max (clamp01opt ((lm 23).map Point2D.y)) (clamp01opt ((lm 24).map Point2D.y))

/-- The geometry/ROM tracking writes shared by every non-aborted frame: the
hip sample push, then timestamp, smoothed points, active rungs, and the
per-hand max-reach update of `CalibAuto.update`. -/
def trackGrid (g : Grid) (lm : Landmarks) (fd : FrameData) (now : ℚ) : Grid :=
  let g1 := { g with neutralSamples := g.neutralSamples ++ [hipSample lm] }
  let g2 := { g1 with
    lastTs := some now
    sL := some fd.sL
    sR := some fd.sR
    leftActive := fd.leftActive
    rightActive := fd.rightActive }
  let g3 :=
    if fd.sL.y < g.minYLeft then
      { g2 with minYLeft := fd.sL.y, maxRungL := some (nearestRung g.yList fd.sL.y) }
    else g2
  if fd.sR.y < g.minYRight then
    { g3 with minYRight := fd.sR.y, maxRungR := some (nearestRung g.yList fd.sR.y) }
  else g3

/-- The steadiness counter after this frame: reset by a candidate change,
incremented exactly on steady frames (`if (steady) grid._kOn++`). -/
def kOnOne (g : Grid) (fd : FrameData) (a : Nat) : Nat :=
  if steadyFor g.step fd = true then (if g.candidate = some a then g.kOn else 0) + 1
  else (if g.candidate = some a then g.kOn else 0)

/-- The hold accumulator after this frame: reset by a candidate change, then
`if (grid._kOn >= grid.kFrames) grid._hold += dt`. -/
def holdOne (g : Grid) (fd : FrameData) (a : Nat) : ℚ :=
  if g.kFrames ≤ (kOnOne g fd a : ℚ) then (if g.candidate = some a then g.hold else 0) + fd.dt
  else (if g.candidate = some a then g.hold else 0)

/-- The session after a frame whose active side hits no rung: candidate and
counters reset, and the smoothed hand height pushed as an extra neutral
sample. -/
def missGrid (g : Grid) (lm : Landmarks) (fd : FrameData) (now : ℚ) : Grid :=
  { trackGrid g lm fd now with
    candidate := none
    kOn := 0
    hold := 0
    neutralSamples := (trackGrid g lm fd now).neutralSamples ++ [yHandFor g.step fd] }

/-- The session after a non-saving frame on an active rung. -/
def holdGrid (g : Grid) (lm : Landmarks) (fd : FrameData) (now : ℚ) (a : Nat) : Grid :=
  { trackGrid g lm fd now with
    candidate := some a
    kOn := kOnOne g fd a
    hold := holdOne g fd a }

/-- The session after a saving frame: the candidate rung is stored for the
side being calibrated, the counters reset, and `step` advances
(`left` to `right`, otherwise to `done`). -/
def saveGrid (g : Grid) (lm : Landmarks) (fd : FrameData) (now : ℚ) (a : Nat) : Grid :=
  match g.step with
  | Step.left =>
      { trackGrid g lm fd now with
        leftSaved := some a
        candidate := none
        kOn := 0
        hold := 0
        step := Step.right }
  | _ =>
      { trackGrid g lm fd now with
        rightSaved := some a
        candidate := none
        kOn := 0
        hold := 0
        step := Step.done }

/-- `CalibAuto.update`, one frame.  Returns the mutated session together with
the returned status object.  The branch structure follows the source line by
line: missing frame or missing wrist landmarks; hip visibility; hip sample
push; hand visibility; then the tracked-geometry branches above with the
save check `grid._hold >= grid.holdSeconds` after this frame's accrual. -/
def update (g : Grid) (lm? : Option Landmarks) (now : ℚ) (mir : Bool) : Grid × Status :=
  match lm? with
  | none => (g, statusOf g g.step 0)
  | some lm =>
    match lm 15, lm 16 with
    | some p15, some p16 =>
      if g.needsHips = true ∧ hipsVisOK g lm = false then
        let g' := { g with candidate := none, kOn := 0, hold := 0 }
        (g', statusOf g' g'.step 0)
      else if handsVisOK g p15 p16 = false then
        let g' := { g with neutralSamples := g.neutralSamples ++ [hipSample lm], kOn := 0, hold := 0 }
        (g', statusOf g' g'.step 0)
      else
        let fd := frameData g p15 p16 now mir
        match activeFor g.step fd with
        | none => (missGrid g lm fd now, statusOf (missGrid g lm fd now) g.step 0)
        | some a =>
          if g.holdSeconds ≤ holdOne g fd a then
            (saveGrid g lm fd now a,
              { ok := true
                side := g.step
                saved := true
                progress := 1
                countdown := 0
                step := (saveGrid g lm fd now a).step
                rungs := none })
          else
            (holdGrid g lm fd now a,
              statusOf (holdGrid g lm fd now a) g.step (holdOne g fd a / g.holdSeconds))
    | _, _ => (g, statusOf g g.step 0)

/-- The data at the save decision of this frame: the synced candidate rung of
the active hand together with the hold value the source compares against
`holdSeconds` (after this frame's accrual).  `none` when the frame exits
before the save check (missing landmarks, failed visibility, or no active
rung).  Built from exactly the helpers `update` uses. -/
def saveDecision (g : Grid) (lm? : Option Landmarks) (now : ℚ) (mir : Bool) :
    Option (Nat × ℚ) :=
  match lm? with
  | none => none
  | some lm =>
    match lm 15, lm 16 with
    | some p15, some p16 =>
      if g.needsHips = true ∧ hipsVisOK g lm = false then none
      else if handsVisOK g p15 p16 = false then none
      else
        let fd := frameData g p15 p16 now mir
        match activeFor g.step fd with
        | none => none
        | some a => some (a, holdOne g fd a)
    | _, _ => none

/-- `yAtIndex` from the source:
`yList[Math.max(1, Math.min(yList.length, idx)) - 1]`, where a `null` index
coerces to `0`.  The result is `none` when the access is out of range (the
source yields `undefined` only for an empty rung list). -/
def yAtIndex (yList : List ℚ) (idx : Option Nat) : Option ℚ :=
  yList.get? (max 1 (min yList.length (idx.getD 0)) - 1)

/-- The ROM summary embedded in the persisted record. -/
structure Rom where
  neutralY : ℚ
  maxReachLeftY : ℚ
  maxReachRightY : ℚ
deriving DecidableEq

/-- The persisted `CalibrationRecord` payload built by `saveCalibration`. -/
structure CalibrationRecord where
  t : ℚ
  mirror : Bool
  count : Nat
  yTop : ℚ
  yBottom : ℚ
  leftX : ℚ
  rightX : ℚ
  hitRadius : ℚ
  leftIndex : Option Nat
  rightIndex : Option Nat
  leftY : Option ℚ
  rightY : Option ℚ
  rom : Rom
  version : String
deriving DecidableEq

/-- `saveCalibration`: the payload construction (storage writes and the toast
are rendering concerns).  `Date.now()` is passed in as `tNow`. -/
def saveCalibration (g : Grid) (tNow : ℚ) : CalibrationRecord :=
  let neutral :=
    if g.neutralSamples.length ≠ 0 then
      g.neutralSamples.sum / (g.neutralSamples.length : ℚ)
    else g.yBottom
  { t := tNow, mirror := true
    count := g.count, yTop := g.yTop, yBottom := g.yBottom
    leftX := g.leftX, rightX := g.rightX, hitRadius := g.hitRadius
    leftIndex := g.leftSaved, rightIndex := g.rightSaved
    leftY := yAtIndex g.yList g.leftSaved, rightY := yAtIndex g.yList g.rightSaved
    rom := { neutralY := neutral, maxReachLeftY := g.minYLeft, maxReachRightY := g.minYRight }
    version := "ladder-v2" }

/-- Session states reachable from `g0` by any sequence of per-frame updates
(the page always passes `isMirrored = true`, but reachability quantifies over
the flag as well). -/
inductive Reachable (g0 : Grid) : Grid → Prop
  | refl : Reachable g0 g0
  | step (g : Grid) (lm? : Option Landmarks) (now : ℚ) (mir : Bool) :
      Reachable g0 g → Reachable g0 (update g lm? now mir).1

/-- The feedback phase of the shoulder-abduction exercise. -/
inductive Phase
  | up
  | waitDown
deriving DecidableEq

/-- The severity tag passed to `showFeedback`. -/
inductive Severity
  | warning
  | correction
  | success
deriving DecidableEq

/-- The mutable state of the `LiveFeedback` class (the DOM element handle and
the rate-limiting timestamps of `showFeedback` are rendering state and out of
scope; the classifier itself never reads them). -/
structure LiveFeedback where
  feedbackCooldown : ℚ
  angleTolerance : ℚ
  level : ℚ
  levels : ℚ
  calib : Option CalibrationRecord
  targetY : ℚ
  neutralY : ℚ
  downBuffer : ℚ
  requireDownFrames : ℚ
  requireUpFrames : ℚ
  phase : Phase
  downCounter : Nat
  upCounter : Nat
deriving DecidableEq

/-- The `LiveFeedback` constructor values. -/
def LiveFeedback.init : LiveFeedback :=
  { feedbackCooldown := 1500
    angleTolerance := 15
    level := 1
    levels := 3
    calib := none
    targetY := 6/10
    neutralY := 78/100
    downBuffer := 2/100
    requireDownFrames := 8
    requireUpFrames := 5
    phase := Phase.up
    downCounter := 0
    upCounter := 0 }

/-- JavaScript `v || d` for a finite number `v`: `d` exactly when `v = 0`. -/
def jsOr (v d : ℚ) : ℚ := if v = 0 then d else v

/-- `LiveFeedback.setLevel`: clamp the level, remember the calibration, read
the ROM, and derive `targetY = lerp(neutralY, maxY, 0.15 + 0.50 * t)` with
`t = (level - 1) / max(1, levels - 1)`; `_lerp` clamps its parameter into
[0,1]; `_safeNum` falls back to 0.78 and 0.18 only when the calibration or
its field is absent (all record fields in the model are finite). -/
def setLevel (fb : LiveFeedback) (level levels : ℚ) (calib : Option CalibrationRecord) :
    LiveFeedback :=
  let lv := max 1 (jsOr level 1)
  let lvs := max lv (jsOr levels lv)
  let cal := match calib with
    | some c => some c
    | none => fb.calib
  let neutral := match cal with
    | some c => c.rom.neutralY
    | none => 78/100
  let maxYL := match cal with
    | some c => c.rom.maxReachLeftY
    | none => 18/100
  let maxYR := match cal with
    | some c => c.rom.maxReachRightY
    | none => 18/100
  let maxY := min maxYL maxYR
  let t := (lv - 1) / max 1 (lvs - 1)
  let frac := 15/100 + 50/100 * t
  { fb with
    level := lv
    levels := lvs
    calib := cal
    neutralY := neutral
    targetY := neutral + (maxY - neutral) * max 0 (min 1 frac) }

/-- `LiveFeedback.setPhase` (the argument is already one of the two valid
phases by typing; each phase change zeroes both counters). -/
def setPhase (fb : LiveFeedback) (p : Phase) : LiveFeedback :=
  { fb with phase := p, downCounter := 0, upCounter := 0 }

/-- `LiveFeedback.isVisible`:
`landmark && (landmark.visibility ?? 0) > threshold`. -/
def isVisible (p : Option Point2D) (threshold : ℚ := 1/2) : Bool :=
  match p with
  | none => false
  | some q => if threshold < q.visibility then true else false

/-- `LiveFeedback.calculateAngle`'s null propagation; the numeric angle (the
folded `|atan2 - atan2|` in degrees) is the abstract parameter `angleAt`. -/
def calculateAngle (angleAt : Point2D → Point2D → Point2D → ℚ)
    (a b c : Option Point2D) : Option ℚ :=
  match a, b, c with
  | some pa, some pb, some pc => some (angleAt pa pb pc)
  | _, _, _ => none

/-- The left-elbow correction guard of `provideShoulderAbductionFeedback`:
elbow and wrist visible, and `a && a < 160` on the computed angle (a zero
angle is falsy in JavaScript). -/
def leftElbowFires (angleAt : Point2D → Point2D → Point2D → ℚ)
    (lm : Landmarks) (ls : Point2D) : Bool :=
  if isVisible (lm 13) = true ∧ isVisible (lm 15) = true then
    match calculateAngle angleAt (some ls) (lm 13) (lm 15) with
    | some a => if a ≠ 0 ∧ a < 160 then true else false
    | none => false
  else false

/-- The right-elbow correction guard, symmetric to the left one. -/
def rightElbowFires (angleAt : Point2D → Point2D → Point2D → ℚ)
    (lm : Landmarks) (rs : Point2D) : Bool :=
  if isVisible (lm 14) = true ∧ isVisible (lm 16) = true then
    match calculateAngle angleAt (some rs) (lm 14) (lm 16) with
    | some a => if a ≠ 0 ∧ a < 160 then true else false
    | none => false
  else false

/-- `LiveFeedback.provideShoulderAbductionFeedback`: returns the updated
state and the message/severity pair handed to `showFeedback` this frame
(`none` when no call is made).  The priority cascade follows the source:
shoulder visibility, shoulder level, elbow straightness (left then right),
hand visibility, then the phase-aware height coaching. -/
def provideShoulderAbductionFeedback (angleAt : Point2D → Point2D → Point2D → ℚ)
    (fb : LiveFeedback) (lm? : Option Landmarks) :
    LiveFeedback × Option (String × Severity) :=
  match lm? with
  | none => (fb, none)
  | some lm =>
    if isVisible (lm 11) = false ∨ isVisible (lm 12) = false then
      (fb, some ("Keep both shoulders visible", Severity.warning))
    else
      match lm 11, lm 12 with
      | some ls, some rs =>
        if 5/100 < |ls.y - rs.y| then
          (fb, some ("Keep your shoulders level", Severity.correction))
        else if leftElbowFires angleAt lm ls = true then
          (fb, some ("Straighten your left elbow", Severity.correction))
        else if rightElbowFires angleAt lm rs = true then
          (fb, some ("Straighten your right elbow", Severity.correction))
        else if isVisible (lm 15) = false ∨ isVisible (lm 16) = false then
          (fb, some ("Keep your hands visible", Severity.warning))
        else
          match lm 15, lm 16 with
          | some lw, some rw =>
            match fb.phase with
            | Phase.waitDown =>
              let downLimitY := fb.neutralY + fb.downBuffer
              let fb1 := { fb with downCounter :=
                if downLimitY ≤ lw.y ∧ downLimitY ≤ rw.y then fb.downCounter + 1 else 0 }
              if ¬ downLimitY ≤ lw.y ∧ ¬ downLimitY ≤ rw.y then
                (fb1, some ("Lower both arms to reset", Severity.correction))
              else if ¬ downLimitY ≤ lw.y then
                (fb1, some ("Lower your left arm to reset", Severity.correction))
              else if ¬ downLimitY ≤ rw.y then
                (fb1, some ("Lower your right arm to reset", Severity.correction))
              else if fb1.requireDownFrames ≤ (fb1.downCounter : ℚ) then
                (fb1, some ("Great reset! Ready for the next rep", Severity.success))
              else (fb1, none)
            | Phase.up =>
              if ¬ lw.y ≤ fb.targetY + 2/100 ∧ ¬ rw.y ≤ fb.targetY + 2/100 then
                ({ fb with upCounter := 0 }, some ("Raise both arms higher", Severity.correction))
              else if ¬ lw.y ≤ fb.targetY + 2/100 then
                ({ fb with upCounter := 0 }, some ("Raise your left arm higher", Severity.correction))
              else if ¬ rw.y ≤ fb.targetY + 2/100 then
                ({ fb with upCounter := 0 }, some ("Raise your right arm higher", Severity.correction))
              else
                let fb1 := { fb with upCounter := fb.upCounter + 1 }
                if fb1.requireUpFrames ≤ (fb1.upCounter : ℚ) then
                  (fb1, some ("Nice height! Hold…", Severity.success))
                else (fb1, none)
          | _, _ => (fb, none)
      | _, _ => (fb, none)

/-- Whether a frame passes every cascade stage before the height check of the
shoulder-abduction feedback (shoulders visible and level, no elbow
correction, hands visible); built from exactly the guards the cascade uses. -/
def reachesUpCheck (angleAt : Point2D → Point2D → Point2D → ℚ)
    (lm? : Option Landmarks) : Bool :=
  match lm? with
  | none => false
  | some lm =>
    if isVisible (lm 11) = false ∨ isVisible (lm 12) = false then false
    else
      match lm 11, lm 12 with
      | some ls, some rs =>
        if 5/100 < |ls.y - rs.y| then false
        else if leftElbowFires angleAt lm ls = true then false
        else if rightElbowFires angleAt lm rs = true then false
        else if isVisible (lm 15) = false ∨ isVisible (lm 16) = false then false
        else true
      | _, _ => false

/-! ### Concrete sessions and frames used by counterexamples and witnesses -/

/-- A small two-rung configuration with a one-frame steadiness window and a
0.1 s hold (every field is legitimate caller-supplied configuration). -/
def cfgA : Config :=
  { count := 2, yTop := 1/5, yBottom := 4/5, leftX := 1/5, rightX := 4/5
    hitRadius := 1/10, holdSeconds := 1/10, kFrames := 1
    maxSpeedPerSec := 1, minVis := 1/2, needsHips := true }

/-- A configuration with a two-frame steadiness window, used to watch the
counter across an unsteady frame. -/
def cfgB : Config :=
  { cfgA with holdSeconds := 1, kFrames := 2, maxSpeedPerSec := 1/2, hitRadius := 1/4 }

/-- `cfgA` with a long hold, so a hold value accrues without saving. -/
def cfgC : Config := { cfgA with holdSeconds := 1 }

/-- A landmark frame containing wrists and hips only. -/
def mkLm (p15 p16 p23 p24 : Option Point2D) : Landmarks := fun i =>
  if i = 15 then p15
  else if i = 16 then p16
  else if i = 23 then p23
  else if i = 24 then p24
  else none

/-- Fully visible left and right hip points. -/
def hipPtL : Point2D := ⟨1/2, 7/10, 1⟩

/-- Fully visible right hip point (lower than the left one). -/
def hipPtR : Point2D := ⟨1/2, 3/4, 1⟩

/-- Both hands held exactly on rung 1 of their lanes (the frame is mirrored,
so the raw x of the left wrist is `1 - leftX`). -/
def lmHold : Landmarks :=
  mkLm (some ⟨4/5, 4/5, 1⟩) (some ⟨1/5, 4/5, 1⟩) (some hipPtL) (some hipPtR)

/-- The left hand displaced by 0.1 in x within one 0.1 s frame: raw speed 1,
still within `cfgB`'s hit radius of rung 1. -/
def lmFast : Landmarks :=
  mkLm (some ⟨7/10, 4/5, 1⟩) (some ⟨1/5, 4/5, 1⟩) (some hipPtL) (some hipPtR)

/-- A frame whose left-wrist landmark is absent. -/
def lmNoHand : Landmarks :=
  mkLm none (some ⟨1/5, 4/5, 1⟩) (some hipPtL) (some hipPtR)

/-- The left hand far from both rungs of its lane (x distance 0.3 from the
lane), the right hand on its rung 1. -/
def lmMiss : Landmarks :=
  mkLm (some ⟨1/2, 1/2, 1⟩) (some ⟨1/5, 4/5, 1⟩) (some hipPtL) (some hipPtR)

/-- States of the `cfgA` session under three steady frames 0.1 s apart: the
left rung saves on the second frame, the right rung on the third. -/
def gA0 : Grid := create cfgA

/-- `cfgA` session after one steady frame. -/
def gA1 : Grid := (update gA0 (some lmHold) 1000 true).1

/-- `cfgA` session after two steady frames (the left-saving frame). -/
def gA2 : Grid := (update gA1 (some lmHold) 1100 true).1

/-- `cfgA` session after three steady frames (the right-saving frame). -/
def gA3 : Grid := (update gA2 (some lmHold) 1200 true).1

/-- `cfgB` session (fresh). -/
def gB0 : Grid := create cfgB

/-- `cfgB` session after one steady frame. -/
def gB1 : Grid := (update gB0 (some lmHold) 1000 true).1

/-- `cfgB` session after the unsteady `lmFast` frame. -/
def gB2 : Grid := (update gB1 (some lmFast) 1100 true).1

/-- `cfgB` session after one further steady frame. -/
def gB3 : Grid := (update gB2 (some lmHold) 1200 true).1

/-- `cfgC` session (fresh). -/
def gC0 : Grid := create cfgC

/-- `cfgC` session after one steady frame. -/
def gC1 : Grid := (update gC0 (some lmHold) 1000 true).1

/-- `cfgC` session after two steady frames (`kOn = 2`, `hold = 1/10`). -/
def gC2 : Grid := (update gC1 (some lmHold) 1100 true).1

/-- A constant angle function standing in for the transcendental
`calculateAngle` body in concrete runs (never reached there: the demo frames
carry no elbow landmarks). -/
def angleFlat : Point2D → Point2D → Point2D → ℚ := fun _ _ _ => 180

/-- A landmark frame containing shoulders and wrists only. -/
def mkLmFb (p11 p12 p15 p16 : Option Point2D) : Landmarks := fun i =>
  if i = 11 then p11
  else if i = 12 then p12
  else if i = 15 then p15
  else if i = 16 then p16
  else none

/-- Shoulders level, elbows undetected, both wrists above the default target
(`y = 1/2 ≤ 0.62`). -/
def lmUp : Landmarks :=
  mkLmFb (some ⟨2/5, 3/10, 1⟩) (some ⟨3/5, 3/10, 1⟩)
    (some ⟨3/10, 1/2, 1⟩) (some ⟨7/10, 1/2, 1⟩)

/-- Shoulders tilted by 0.3 in y and both wrists far below the target. -/
def lmTilted : Landmarks :=
  mkLmFb (some ⟨2/5, 1/5, 1⟩) (some ⟨3/5, 1/2, 1⟩)
    (some ⟨3/10, 9/10, 1⟩) (some ⟨7/10, 9/10, 1⟩)

/-- One feedback frame: the state after `provideShoulderAbductionFeedback`. -/
def fbStep (fb : LiveFeedback) (lm : Landmarks) : LiveFeedback :=
  (provideShoulderAbductionFeedback angleFlat fb (some lm)).1

/-- Feedback state after 1 up frame from the constructor state. -/
def fbU1 : LiveFeedback := fbStep LiveFeedback.init lmUp

/-- Feedback state after 2 up frames. -/
def fbU2 : LiveFeedback := fbStep fbU1 lmUp

/-- Feedback state after 3 up frames. -/
def fbU3 : LiveFeedback := fbStep fbU2 lmUp

/-- Feedback state after 4 up frames. -/
def fbU4 : LiveFeedback := fbStep fbU3 lmUp

/-- Feedback state after 4 up frames and the tilted frame. -/
def fbU5 : LiveFeedback := fbStep fbU4 lmTilted

/-- A complete calibration record whose maximum reach is above (numerically
smaller than) the neutral height, as the ladder produces. -/
def calDemo : CalibrationRecord :=
  { t := 0, mirror := true, count := 8, yTop := 3/25, yBottom := 17/20
    leftX := 9/50, rightX := 41/50, hitRadius := 3/25
    leftIndex := some 5, rightIndex := some 5
    leftY := some (1/2), rightY := some (1/2)
    rom := { neutralY := 39/50, maxReachLeftY := 9/50, maxReachRightY := 9/50 }
    version := "ladder-v2" }

/-- The completion invariant behind the persisted record: a session in step
`right` or `done` has a left rung saved, and one in step `done` has both. -/
def doneInv (g : Grid) : Prop :=
  (g.step = Step.right ∨ g.step = Step.done → g.leftSaved ≠ none) ∧
  (g.step = Step.done → g.rightSaved ≠ none)

/-- An optional rung index that is absent or within `1 .. c`. -/
def optInRange (c : Nat) (o : Option Nat) : Prop :=
  ∀ n, o = some n → 1 ≤ n ∧ n ≤ c

/-- The rung-range invariant: a positive rung count matching the rung list,
and every stored optional rung index within `1 .. count`. -/
def rangeInv (g : Grid) : Prop :=
  1 ≤ g.count ∧ g.yList.length = g.count ∧
  optInRange g.count g.leftActive ∧ optInRange g.count g.rightActive ∧
  optInRange g.count g.leftSaved ∧ optInRange g.count g.rightSaved ∧
  optInRange g.count g.candidate ∧
  optInRange g.count g.maxRungL ∧ optInRange g.count g.maxRungR

/-! ### Evaluation of the concrete sessions -/

/-- The simp set used to evaluate one concrete `update` frame. -/
theorem gA1_val : gA1 =
    { count := 2, yTop := 1/5, yBottom := 4/5, leftX := 1/5, rightX := 4/5
      hitRadius := 1/10, yList := [4/5, 1/5], holdSeconds := 1/10, kFrames := 1
      maxSpeedPerSec := 1, minVis := 1/2, needsHips := true, step := Step.left
      leftActive := some 1, rightActive := some 1, leftSaved := none, rightSaved := none
      lastTs := some 1000, sL := some ⟨1/5, 4/5, 1⟩, sR := some ⟨4/5, 4/5, 1⟩
      kOn := 1, hold := 0, candidate := some 1, neutralSamples := [3/4]
      maxRungL := some 1, maxRungR := some 1, minYLeft := 4/5, minYRight := 4/5 } := by
  norm_num [gA1, gA0, update, trackGrid, missGrid, holdGrid, saveGrid, kOnOne, holdOne, create, cfgA, lmHold, mkLm, hipPtL, hipPtR, hipsVisOK,
    handsVisOK, visOf, hipSample, clamp01opt, clamp01, frameData, nrm, jsDt, emaStep,
    speedLE, hitIndex, hitScan, d2At, nearestRung, nearestScan, activeFor, steadyFor,
    yHandFor, statusOf, List.range_succ, min_def, max_def]

theorem gA2_val : gA2 =
    { count := 2, yTop := 1/5, yBottom := 4/5, leftX := 1/5, rightX := 4/5
      hitRadius := 1/10, yList := [4/5, 1/5], holdSeconds := 1/10, kFrames := 1
      maxSpeedPerSec := 1, minVis := 1/2, needsHips := true, step := Step.right
      leftActive := some 1, rightActive := some 1, leftSaved := some 1, rightSaved := none
      lastTs := some 1100, sL := some ⟨1/5, 4/5, 1⟩, sR := some ⟨4/5, 4/5, 1⟩
      kOn := 0, hold := 0, candidate := none, neutralSamples := [3/4, 3/4]
      maxRungL := some 1, maxRungR := some 1, minYLeft := 4/5, minYRight := 4/5 } := by
  rw [gA2, gA1_val]
  norm_num [update, trackGrid, missGrid, holdGrid, saveGrid, kOnOne, holdOne, lmHold, mkLm, hipPtL, hipPtR, hipsVisOK,
    handsVisOK, visOf, hipSample, clamp01opt, clamp01, frameData, nrm, jsDt, emaStep,
    speedLE, hitIndex, hitScan, d2At, nearestRung, nearestScan, activeFor, steadyFor,
    yHandFor, statusOf, min_def, max_def]

theorem stA2_val : (update gA1 (some lmHold) 1100 true).2 =
    { ok := true, side := Step.left, saved := true, progress := 1
      countdown := 0, step := Step.right, rungs := none } := by
  rw [gA1_val]
  norm_num [update, trackGrid, missGrid, holdGrid, saveGrid, kOnOne, holdOne, lmHold, mkLm, hipPtL, hipPtR, hipsVisOK,
    handsVisOK, visOf, hipSample, clamp01opt, clamp01, frameData, nrm, jsDt, emaStep,
    speedLE, hitIndex, hitScan, d2At, nearestRung, nearestScan, activeFor, steadyFor,
    yHandFor, statusOf, min_def, max_def]

theorem gA3_val : gA3 =
    { count := 2, yTop := 1/5, yBottom := 4/5, leftX := 1/5, rightX := 4/5
      hitRadius := 1/10, yList := [4/5, 1/5], holdSeconds := 1/10, kFrames := 1
      maxSpeedPerSec := 1, minVis := 1/2, needsHips := true, step := Step.done
      leftActive := some 1, rightActive := some 1, leftSaved := some 1, rightSaved := some 1
      lastTs := some 1200, sL := some ⟨1/5, 4/5, 1⟩, sR := some ⟨4/5, 4/5, 1⟩
      kOn := 0, hold := 0, candidate := none, neutralSamples := [3/4, 3/4, 3/4]
      maxRungL := some 1, maxRungR := some 1, minYLeft := 4/5, minYRight := 4/5 } := by
  rw [gA3, gA2_val]
  norm_num [update, trackGrid, missGrid, holdGrid, saveGrid, kOnOne, holdOne, lmHold, mkLm, hipPtL, hipPtR, hipsVisOK,
    handsVisOK, visOf, hipSample, clamp01opt, clamp01, frameData, nrm, jsDt, emaStep,
    speedLE, hitIndex, hitScan, d2At, nearestRung, nearestScan, activeFor, steadyFor,
    yHandFor, statusOf, min_def, max_def]

theorem gB1_val : gB1 =
    { count := 2, yTop := 1/5, yBottom := 4/5, leftX := 1/5, rightX := 4/5
      hitRadius := 1/4, yList := [4/5, 1/5], holdSeconds := 1, kFrames := 2
      maxSpeedPerSec := 1/2, minVis := 1/2, needsHips := true, step := Step.left
      leftActive := some 1, rightActive := some 1, leftSaved := none, rightSaved := none
      lastTs := some 1000, sL := some ⟨1/5, 4/5, 1⟩, sR := some ⟨4/5, 4/5, 1⟩
      kOn := 1, hold := 0, candidate := some 1, neutralSamples := [3/4]
      maxRungL := some 1, maxRungR := some 1, minYLeft := 4/5, minYRight := 4/5 } := by
  norm_num [gB1, gB0, update, trackGrid, missGrid, holdGrid, saveGrid, kOnOne, holdOne, create, cfgB, cfgA, lmHold, mkLm, hipPtL, hipPtR, hipsVisOK,
    handsVisOK, visOf, hipSample, clamp01opt, clamp01, frameData, nrm, jsDt, emaStep,
    speedLE, hitIndex, hitScan, d2At, nearestRung, nearestScan, activeFor, steadyFor,
    yHandFor, statusOf, List.range_succ, min_def, max_def]

theorem gB2_val : gB2 =
    { count := 2, yTop := 1/5, yBottom := 4/5, leftX := 1/5, rightX := 4/5
      hitRadius := 1/4, yList := [4/5, 1/5], holdSeconds := 1, kFrames := 2
      maxSpeedPerSec := 1/2, minVis := 1/2, needsHips := true, step := Step.left
      leftActive := some 1, rightActive := some 1, leftSaved := none, rightSaved := none
      lastTs := some 1100, sL := some ⟨47/200, 4/5, 1⟩, sR := some ⟨4/5, 4/5, 1⟩
      kOn := 1, hold := 0, candidate := some 1, neutralSamples := [3/4, 3/4]
      maxRungL := some 1, maxRungR := some 1, minYLeft := 4/5, minYRight := 4/5 } := by
  rw [gB2, gB1_val]
  norm_num [update, trackGrid, missGrid, holdGrid, saveGrid, kOnOne, holdOne, lmFast, mkLm, hipPtL, hipPtR, hipsVisOK,
    handsVisOK, visOf, hipSample, clamp01opt, clamp01, frameData, nrm, jsDt, emaStep,
    speedLE, hitIndex, hitScan, d2At, nearestRung, nearestScan, activeFor, steadyFor,
    yHandFor, statusOf, min_def, max_def]

theorem gB3_val : gB3 =
    { count := 2, yTop := 1/5, yBottom := 4/5, leftX := 1/5, rightX := 4/5
      hitRadius := 1/4, yList := [4/5, 1/5], holdSeconds := 1, kFrames := 2
      maxSpeedPerSec := 1/2, minVis := 1/2, needsHips := true, step := Step.left
      leftActive := some 1, rightActive := some 1, leftSaved := none, rightSaved := none
      lastTs := some 1200, sL := some ⟨891/4000, 4/5, 1⟩, sR := some ⟨4/5, 4/5, 1⟩
      kOn := 2, hold := 1/10, candidate := some 1, neutralSamples := [3/4, 3/4, 3/4]
      maxRungL := some 1, maxRungR := some 1, minYLeft := 4/5, minYRight := 4/5 } := by
  rw [gB3, gB2_val]
  norm_num [update, trackGrid, missGrid, holdGrid, saveGrid, kOnOne, holdOne, lmHold, mkLm, hipPtL, hipPtR, hipsVisOK,
    handsVisOK, visOf, hipSample, clamp01opt, clamp01, frameData, nrm, jsDt, emaStep,
    speedLE, hitIndex, hitScan, d2At, nearestRung, nearestScan, activeFor, steadyFor,
    yHandFor, statusOf, min_def, max_def]

theorem gC1_val : gC1 =
    { count := 2, yTop := 1/5, yBottom := 4/5, leftX := 1/5, rightX := 4/5
      hitRadius := 1/10, yList := [4/5, 1/5], holdSeconds := 1, kFrames := 1
      maxSpeedPerSec := 1, minVis := 1/2, needsHips := true, step := Step.left
      leftActive := some 1, rightActive := some 1, leftSaved := none, rightSaved := none
      lastTs := some 1000, sL := some ⟨1/5, 4/5, 1⟩, sR := some ⟨4/5, 4/5, 1⟩
      kOn := 1, hold := 0, candidate := some 1, neutralSamples := [3/4]
      maxRungL := some 1, maxRungR := some 1, minYLeft := 4/5, minYRight := 4/5 } := by
  norm_num [gC1, gC0, update, trackGrid, missGrid, holdGrid, saveGrid, kOnOne, holdOne, create, cfgC, cfgA, lmHold, mkLm, hipPtL, hipPtR, hipsVisOK,
    handsVisOK, visOf, hipSample, clamp01opt, clamp01, frameData, nrm, jsDt, emaStep,
    speedLE, hitIndex, hitScan, d2At, nearestRung, nearestScan, activeFor, steadyFor,
    yHandFor, statusOf, List.range_succ, min_def, max_def]

theorem gC2_val : gC2 =
    { count := 2, yTop := 1/5, yBottom := 4/5, leftX := 1/5, rightX := 4/5
      hitRadius := 1/10, yList := [4/5, 1/5], holdSeconds := 1, kFrames := 1
      maxSpeedPerSec := 1, minVis := 1/2, needsHips := true, step := Step.left
      leftActive := some 1, rightActive := some 1, leftSaved := none, rightSaved := none
      lastTs := some 1100, sL := some ⟨1/5, 4/5, 1⟩, sR := some ⟨4/5, 4/5, 1⟩
      kOn := 2, hold := 1/10, candidate := some 1, neutralSamples := [3/4, 3/4]
      maxRungL := some 1, maxRungR := some 1, minYLeft := 4/5, minYRight := 4/5 } := by
  rw [gC2, gC1_val]
  norm_num [update, trackGrid, missGrid, holdGrid, saveGrid, kOnOne, holdOne, lmHold, mkLm, hipPtL, hipPtR, hipsVisOK,
    handsVisOK, visOf, hipSample, clamp01opt, clamp01, frameData, nrm, jsDt, emaStep,
    speedLE, hitIndex, hitScan, d2At, nearestRung, nearestScan, activeFor, steadyFor,
    yHandFor, statusOf, min_def, max_def]

theorem fbU1_val : fbU1 = { LiveFeedback.init with upCounter := 1 } := by
  norm_num [fbU1, fbStep, provideShoulderAbductionFeedback, LiveFeedback.init, lmUp,
    mkLmFb, isVisible, leftElbowFires, rightElbowFires, calculateAngle, angleFlat,
    abs_sub_le_iff]

theorem fbU2_val : fbU2 = { LiveFeedback.init with upCounter := 2 } := by
  rw [fbU2, fbU1_val]
  norm_num [fbStep, provideShoulderAbductionFeedback, LiveFeedback.init, lmUp,
    mkLmFb, isVisible, leftElbowFires, rightElbowFires, calculateAngle, angleFlat,
    abs_sub_le_iff]

theorem fbU3_val : fbU3 = { LiveFeedback.init with upCounter := 3 } := by
  rw [fbU3, fbU2_val]
  norm_num [fbStep, provideShoulderAbductionFeedback, LiveFeedback.init, lmUp,
    mkLmFb, isVisible, leftElbowFires, rightElbowFires, calculateAngle, angleFlat,
    abs_sub_le_iff]

theorem fbU4_val : fbU4 = { LiveFeedback.init with upCounter := 4 } := by
  rw [fbU4, fbU3_val]
  norm_num [fbStep, provideShoulderAbductionFeedback, LiveFeedback.init, lmUp,
    mkLmFb, isVisible, leftElbowFires, rightElbowFires, calculateAngle, angleFlat,
    abs_sub_le_iff]

theorem fbTilted_val :
    provideShoulderAbductionFeedback angleFlat fbU4 (some lmTilted) =
      ({ LiveFeedback.init with upCounter := 4 },
        some ("Keep your shoulders level", Severity.correction)) := by
  rw [fbU4_val]
  norm_num [provideShoulderAbductionFeedback, LiveFeedback.init, lmTilted,
    mkLmFb, isVisible, leftElbowFires, rightElbowFires, calculateAngle, angleFlat,
    abs_of_nonpos, abs_of_nonneg]

theorem fbU5_val : fbU5 = { LiveFeedback.init with upCounter := 4 } := by
  rw [fbU5, fbStep, fbTilted_val]

theorem fbSuccess_val :
    provideShoulderAbductionFeedback angleFlat fbU5 (some lmUp) =
      ({ LiveFeedback.init with upCounter := 5 },
        some ("Nice height! Hold…", Severity.success)) := by
  rw [fbU5_val]
  norm_num [provideShoulderAbductionFeedback, LiveFeedback.init, lmUp,
    mkLmFb, isVisible, leftElbowFires, rightElbowFires, calculateAngle, angleFlat,
    abs_sub_le_iff]

/-! ### Structural lemmas -/

theorem trackGrid_proj (g : Grid) (lm : Landmarks) (fd : FrameData) (now : ℚ) :
    (trackGrid g lm fd now).count = g.count ∧
    (trackGrid g lm fd now).yTop = g.yTop ∧
    (trackGrid g lm fd now).yBottom = g.yBottom ∧
    (trackGrid g lm fd now).leftX = g.leftX ∧
    (trackGrid g lm fd now).rightX = g.rightX ∧
    (trackGrid g lm fd now).hitRadius = g.hitRadius ∧
    (trackGrid g lm fd now).yList = g.yList ∧
    (trackGrid g lm fd now).holdSeconds = g.holdSeconds ∧
    (trackGrid g lm fd now).kFrames = g.kFrames ∧
    (trackGrid g lm fd now).maxSpeedPerSec = g.maxSpeedPerSec ∧
    (trackGrid g lm fd now).minVis = g.minVis ∧
    (trackGrid g lm fd now).needsHips = g.needsHips ∧
    (trackGrid g lm fd now).step = g.step ∧
    (trackGrid g lm fd now).leftActive = fd.leftActive ∧
    (trackGrid g lm fd now).rightActive = fd.rightActive ∧
    (trackGrid g lm fd now).leftSaved = g.leftSaved ∧
    (trackGrid g lm fd now).rightSaved = g.rightSaved ∧
    (trackGrid g lm fd now).kOn = g.kOn ∧
    (trackGrid g lm fd now).hold = g.hold ∧
    (trackGrid g lm fd now).candidate = g.candidate ∧
    (trackGrid g lm fd now).neutralSamples = g.neutralSamples ++ [hipSample lm] ∧
    ((trackGrid g lm fd now).maxRungL = g.maxRungL ∨
      (trackGrid g lm fd now).maxRungL = some (nearestRung g.yList fd.sL.y)) ∧
    ((trackGrid g lm fd now).maxRungR = g.maxRungR ∨
      (trackGrid g lm fd now).maxRungR = some (nearestRung g.yList fd.sR.y)) := by
  simp only [trackGrid]
  split <;> split <;> simp

theorem update_shape (g : Grid) (lm? : Option Landmarks) (now : ℚ) (mir : Bool) :
    ((lm? = none ∨ ∃ lm, lm? = some lm ∧ (lm 15 = none ∨ lm 16 = none)) ∧
      update g lm? now mir = (g, statusOf g g.step 0)) ∨
    (∃ lm p15 p16, lm? = some lm ∧ lm 15 = some p15 ∧ lm 16 = some p16 ∧
      (g.needsHips = true ∧ hipsVisOK g lm = false) ∧
      update g lm? now mir =
        ({ g with candidate := none, kOn := 0, hold := 0 },
          statusOf { g with candidate := none, kOn := 0, hold := 0 } g.step 0)) ∨
    (∃ lm p15 p16, lm? = some lm ∧ lm 15 = some p15 ∧ lm 16 = some p16 ∧
      ¬(g.needsHips = true ∧ hipsVisOK g lm = false) ∧ handsVisOK g p15 p16 = false ∧
      update g lm? now mir =
        ({ g with neutralSamples := g.neutralSamples ++ [hipSample lm], kOn := 0, hold := 0 },
          statusOf { g with neutralSamples := g.neutralSamples ++ [hipSample lm], kOn := 0, hold := 0 }
            g.step 0)) ∨
    (∃ lm p15 p16, lm? = some lm ∧ lm 15 = some p15 ∧ lm 16 = some p16 ∧
      ¬(g.needsHips = true ∧ hipsVisOK g lm = false) ∧ ¬ handsVisOK g p15 p16 = false ∧
      activeFor g.step (frameData g p15 p16 now mir) = none ∧
      update g lm? now mir =
        (missGrid g lm (frameData g p15 p16 now mir) now,
          statusOf (missGrid g lm (frameData g p15 p16 now mir) now) g.step 0)) ∨
    (∃ lm p15 p16 a, lm? = some lm ∧ lm 15 = some p15 ∧ lm 16 = some p16 ∧
      ¬(g.needsHips = true ∧ hipsVisOK g lm = false) ∧ ¬ handsVisOK g p15 p16 = false ∧
      activeFor g.step (frameData g p15 p16 now mir) = some a ∧
      g.holdSeconds ≤ holdOne g (frameData g p15 p16 now mir) a ∧
      update g lm? now mir =
        (saveGrid g lm (frameData g p15 p16 now mir) now a,
          { ok := true, side := g.step, saved := true, progress := 1, countdown := 0
            step := (saveGrid g lm (frameData g p15 p16 now mir) now a).step, rungs := none })) ∨
    (∃ lm p15 p16 a, lm? = some lm ∧ lm 15 = some p15 ∧ lm 16 = some p16 ∧
      ¬(g.needsHips = true ∧ hipsVisOK g lm = false) ∧ ¬ handsVisOK g p15 p16 = false ∧
      activeFor g.step (frameData g p15 p16 now mir) = some a ∧
      ¬ g.holdSeconds ≤ holdOne g (frameData g p15 p16 now mir) a ∧
      update g lm? now mir =
        (holdGrid g lm (frameData g p15 p16 now mir) now a,
          statusOf (holdGrid g lm (frameData g p15 p16 now mir) now a) g.step
            (holdOne g (frameData g p15 p16 now mir) a / g.holdSeconds))) := by
  rcases lm? with _ | lm
  · exact Or.inl ⟨Or.inl rfl, rfl⟩
  · rcases h15 : lm 15 with _ | p15
    · refine Or.inl ⟨Or.inr ⟨lm, rfl, Or.inl h15⟩, ?_⟩
      simp [update, h15]
    · rcases h16 : lm 16 with _ | p16
      · refine Or.inl ⟨Or.inr ⟨lm, rfl, Or.inr h16⟩, ?_⟩
        simp [update, h15, h16]
      · by_cases hh : g.needsHips = true ∧ hipsVisOK g lm = false
        · exact Or.inr (Or.inl ⟨lm, p15, p16, rfl, h15, h16, hh,
            by simp [update, h15, h16, hh]⟩)
        · by_cases hv : handsVisOK g p15 p16 = false
          · exact Or.inr (Or.inr (Or.inl ⟨lm, p15, p16, rfl, h15, h16, hh, hv,
              by simp [update, h15, h16, hh, hv]⟩))
          · rcases ha : activeFor g.step (frameData g p15 p16 now mir) with _ | a
            · refine Or.inr (Or.inr (Or.inr (Or.inl
                ⟨lm, p15, p16, rfl, h15, h16, hh, hv, ha, ?_⟩)))
              simp [update, h15, h16, hh, hv, ha]
            · by_cases hs : g.holdSeconds ≤ holdOne g (frameData g p15 p16 now mir) a
              · refine Or.inr (Or.inr (Or.inr (Or.inr (Or.inl
                  ⟨lm, p15, p16, a, rfl, h15, h16, hh, hv, ha, hs, ?_⟩))))
                simp [update, h15, h16, hh, hv, ha, hs]
              · refine Or.inr (Or.inr (Or.inr (Or.inr (Or.inr
                  ⟨lm, p15, p16, a, rfl, h15, h16, hh, hv, ha, hs, ?_⟩))))
                simp [update, h15, h16, hh, hv, ha, hs]

theorem hitScan_le (x y lane : ℚ) :
    ∀ (l : List ℚ) (i : Nat) (acc : Option (Nat × ℚ)) (b : Nat) (d : ℚ),
      hitScan x y lane l i acc = some (b, d) →
      (∀ yy ∈ l, d ≤ d2At x y lane yy) ∧ ∀ p : Nat × ℚ, acc = some p → d ≤ p.2 := by
  intro l
  induction l with
  | nil =>
      intro i acc b d h
      simp only [hitScan] at h
      refine ⟨by simp, fun p hp => ?_⟩
      rw [hp] at h
      obtain rfl : p = (b, d) := Option.some.inj h
      exact le_refl _
  | cons yy rest ih =>
      intro i acc b d h
      rcases acc with _ | bd
      · simp only [hitScan] at h
        obtain ⟨h1, h2⟩ := ih (i + 1) (some (i, d2At x y lane yy)) b d h
        have hd : d ≤ d2At x y lane yy := h2 _ rfl
        refine ⟨fun z hz => ?_, fun p hp => by cases hp⟩
        rcases List.mem_cons.mp hz with rfl | hz'
        · exact hd
        · exact h1 z hz'
      · by_cases hlt : d2At x y lane yy < bd.2
        · simp only [hitScan, if_pos hlt] at h
          obtain ⟨h1, h2⟩ := ih (i + 1) (some (i, d2At x y lane yy)) b d h
          have hd : d ≤ d2At x y lane yy := h2 _ rfl
          refine ⟨fun z hz => ?_, fun p hp => ?_⟩
          · rcases List.mem_cons.mp hz with rfl | hz'
            · exact hd
            · exact h1 z hz'
          · obtain rfl : bd = p := Option.some.inj hp
            exact hd.trans hlt.le
        · simp only [hitScan, if_neg hlt] at h
          obtain ⟨h1, h2⟩ := ih (i + 1) (some bd) b d h
          have hd : d ≤ bd.2 := h2 _ rfl
          refine ⟨fun z hz => ?_, fun p hp => ?_⟩
          · rcases List.mem_cons.mp hz with rfl | hz'
            · exact hd.trans (not_lt.mp hlt)
            · exact h1 z hz'
          · obtain rfl : bd = p := Option.some.inj hp
            exact hd

theorem hitScan_mem (x y lane : ℚ) :
    ∀ (l : List ℚ) (i : Nat) (acc : Option (Nat × ℚ)) (b : Nat) (d : ℚ),
      hitScan x y lane l i acc = some (b, d) →
      acc = some (b, d) ∨
        ∃ j yy, l.get? j = some yy ∧ b = i + j ∧ d = d2At x y lane yy := by
  intro l
  induction l with
  | nil =>
      intro i acc b d h
      simp only [hitScan] at h
      exact Or.inl h
  | cons yy rest ih =>
      intro i acc b d h
      rcases acc with _ | bd
      · simp only [hitScan] at h
        rcases ih (i + 1) (some (i, d2At x y lane yy)) b d h with hL | ⟨j, yy', hj, hb, hd⟩
        · obtain ⟨rfl, rfl⟩ : i = b ∧ d2At x y lane yy = d := by
            have := Option.some.inj hL
            exact ⟨congrArg Prod.fst this, congrArg Prod.snd this⟩
          exact Or.inr ⟨0, yy, rfl, by omega, rfl⟩
        · exact Or.inr ⟨j + 1, yy', by simpa using hj, by omega, hd⟩
      · by_cases hlt : d2At x y lane yy < bd.2
        · simp only [hitScan, if_pos hlt] at h
          rcases ih (i + 1) (some (i, d2At x y lane yy)) b d h with hL | ⟨j, yy', hj, hb, hd⟩
          · obtain ⟨rfl, rfl⟩ : i = b ∧ d2At x y lane yy = d := by
              have := Option.some.inj hL
              exact ⟨congrArg Prod.fst this, congrArg Prod.snd this⟩
            exact Or.inr ⟨0, yy, rfl, by omega, rfl⟩
          · exact Or.inr ⟨j + 1, yy', by simpa using hj, by omega, hd⟩
        · simp only [hitScan, if_neg hlt] at h
          rcases ih (i + 1) (some bd) b d h with hL | ⟨j, yy', hj, hb, hd⟩
          · exact Or.inl hL
          · exact Or.inr ⟨j + 1, yy', by simpa using hj, by omega, hd⟩

theorem hitIndex_range (yl : List ℚ) (r x y lane : ℚ) (k : Nat)
    (h : hitIndex yl r x y lane = some k) : 1 ≤ k ∧ k ≤ yl.length := by
  rcases hscan : hitScan x y lane yl 0 none with _ | bd
  · simp only [hitIndex, hscan] at h
    exact absurd h (by simp)
  · simp only [hitIndex, hscan] at h
    by_cases hc : 0 ≤ r ∧ bd.2 ≤ r ^ 2
    · rw [if_pos hc] at h
      obtain rfl : bd.1 + 1 = k := Option.some.inj h
      rcases hitScan_mem x y lane yl 0 none bd.1 bd.2 hscan with hL | ⟨j, yy, hj, hb, _⟩
      · cases hL
      · have hjl : j < yl.length := List.get?_eq_some.mp hj |>.1
        omega
    · rw [if_neg hc] at h
      cases h

theorem hitIndex_none_far (yl : List ℚ) (r x y lane : ℚ)
    (hfar : ∀ yy ∈ yl, r < 0 ∨ r ^ 2 < d2At x y lane yy) :
    hitIndex yl r x y lane = none := by
  rcases hscan : hitScan x y lane yl 0 none with _ | bd
  · simp only [hitIndex, hscan]
  · simp only [hitIndex, hscan]
    rcases hitScan_mem x y lane yl 0 none bd.1 bd.2 hscan with hL | ⟨j, yy, hj, _, hd⟩
    · cases hL
    · have hmem : yy ∈ yl := List.get?_mem hj
      rcases hfar yy hmem with hr | hlt
      · rw [if_neg]
        rintro ⟨hr0, _⟩
        exact absurd hr0 (not_le.mpr hr)
      · rw [if_neg]
        rintro ⟨_, hle⟩
        rw [hd] at hle
        exact absurd hle (not_le.mpr hlt)

theorem hitIndex_nearest (yl : List ℚ) (r x y lane : ℚ) (k : Nat)
    (h : hitIndex yl r x y lane = some k) :
    ∃ yk, yl.get? (k - 1) = some yk ∧ 0 ≤ r ∧ d2At x y lane yk ≤ r ^ 2 ∧
      ∀ yy ∈ yl, (y - yk) ^ 2 ≤ (y - yy) ^ 2 := by
  rcases hscan : hitScan x y lane yl 0 none with _ | bd
  · simp only [hitIndex, hscan] at h
    exact absurd h (by simp)
  · simp only [hitIndex, hscan] at h
    by_cases hc : 0 ≤ r ∧ bd.2 ≤ r ^ 2
    · rw [if_pos hc] at h
      obtain rfl : bd.1 + 1 = k := Option.some.inj h
      rcases hitScan_mem x y lane yl 0 none bd.1 bd.2 hscan with hL | ⟨j, yk, hj, hb, hd⟩
      · cases hL
      · refine ⟨yk, by simpa [hb] using hj, hc.1, by rw [← hd]; exact hc.2, fun yy hyy => ?_⟩
        have hle := (hitScan_le x y lane yl 0 none bd.1 bd.2 hscan).1 yy hyy
        rw [hd] at hle
        simp only [d2At] at hle
        nlinarith [hle]
    · rw [if_neg hc] at h
      cases h

theorem nearestScan_cases (y : ℚ) :
    ∀ (l : List ℚ) (i best : Nat) (acc : Option ℚ),
      nearestScan y l i best acc = best ∨
        ∃ j, j < l.length ∧ nearestScan y l i best acc = i + j + 1 := by
  intro l
  induction l with
  | nil => intro i best acc; exact Or.inl rfl
  | cons yy rest ih =>
      intro i best acc
      rcases acc with _ | b
      · rcases ih (i + 1) (i + 1) (some |yy - y|) with h | ⟨j, hj, h⟩
        · right
          exact ⟨0, by simp, by simpa [nearestScan] using h⟩
        · right
          refine ⟨j + 1, by simpa using Nat.succ_lt_succ hj, ?_⟩
          simp only [nearestScan]
          omega
      · by_cases hlt : |yy - y| < b
        · rcases ih (i + 1) (i + 1) (some |yy - y|) with h | ⟨j, hj, h⟩
          · right
            refine ⟨0, by simp, ?_⟩
            simpa [nearestScan, if_pos hlt] using h
          · right
            refine ⟨j + 1, by simpa using Nat.succ_lt_succ hj, ?_⟩
            simp only [nearestScan, if_pos hlt]
            omega
        · rcases ih (i + 1) best (some b) with h | ⟨j, hj, h⟩
          · left
            simpa [nearestScan, if_neg hlt] using h
          · right
            refine ⟨j + 1, by simpa using Nat.succ_lt_succ hj, ?_⟩
            simp only [nearestScan, if_neg hlt]
            omega

theorem nearestRung_range (yl : List ℚ) (y : ℚ) (h : yl ≠ []) :
    1 ≤ nearestRung yl y ∧ nearestRung yl y ≤ yl.length := by
  cases yl with
  | nil => exact absurd rfl h
  | cons yy rest =>
      have hstep : nearestRung (yy :: rest) y = nearestScan y rest 1 1 (some |yy - y|) := rfl
      rw [hstep, List.length_cons]
      rcases nearestScan_cases y rest 1 1 (some |yy - y|) with h1 | ⟨j, hj, h1⟩ <;>
        rw [h1] <;> omega

theorem trackGrid_step (g : Grid) (lm : Landmarks) (fd : FrameData) (now : ℚ) :
    (trackGrid g lm fd now).step = g.step := by
  simp only [trackGrid]; split <;> split <;> rfl

theorem trackGrid_count (g : Grid) (lm : Landmarks) (fd : FrameData) (now : ℚ) :
    (trackGrid g lm fd now).count = g.count := by
  simp only [trackGrid]; split <;> split <;> rfl

theorem trackGrid_yList (g : Grid) (lm : Landmarks) (fd : FrameData) (now : ℚ) :
    (trackGrid g lm fd now).yList = g.yList := by
  simp only [trackGrid]; split <;> split <;> rfl

theorem trackGrid_holdSeconds (g : Grid) (lm : Landmarks) (fd : FrameData) (now : ℚ) :
    (trackGrid g lm fd now).holdSeconds = g.holdSeconds := by
  simp only [trackGrid]; split <;> split <;> rfl

theorem trackGrid_leftSaved (g : Grid) (lm : Landmarks) (fd : FrameData) (now : ℚ) :
    (trackGrid g lm fd now).leftSaved = g.leftSaved := by
  simp only [trackGrid]; split <;> split <;> rfl

theorem trackGrid_rightSaved (g : Grid) (lm : Landmarks) (fd : FrameData) (now : ℚ) :
    (trackGrid g lm fd now).rightSaved = g.rightSaved := by
  simp only [trackGrid]; split <;> split <;> rfl

theorem trackGrid_leftActive (g : Grid) (lm : Landmarks) (fd : FrameData) (now : ℚ) :
    (trackGrid g lm fd now).leftActive = fd.leftActive := by
  simp only [trackGrid]; split <;> split <;> rfl

theorem trackGrid_rightActive (g : Grid) (lm : Landmarks) (fd : FrameData) (now : ℚ) :
    (trackGrid g lm fd now).rightActive = fd.rightActive := by
  simp only [trackGrid]; split <;> split <;> rfl

theorem trackGrid_neutralSamples (g : Grid) (lm : Landmarks) (fd : FrameData) (now : ℚ) :
    (trackGrid g lm fd now).neutralSamples = g.neutralSamples ++ [hipSample lm] := by
  simp only [trackGrid]; split <;> split <;> rfl

theorem frameData_leftActive (g : Grid) (p15 p16 : Point2D) (now : ℚ) (mir : Bool) :
    (frameData g p15 p16 now mir).leftActive =
      hitIndex g.yList g.hitRadius (frameData g p15 p16 now mir).sL.x
        (frameData g p15 p16 now mir).sL.y g.leftX := rfl

theorem frameData_rightActive (g : Grid) (p15 p16 : Point2D) (now : ℚ) (mir : Bool) :
    (frameData g p15 p16 now mir).rightActive =
      hitIndex g.yList g.hitRadius (frameData g p15 p16 now mir).sR.x
        (frameData g p15 p16 now mir).sR.y g.rightX := rfl

theorem clamp01_nonneg (v : ℚ) : 0 ≤ clamp01 v := le_max_left _ _

theorem clamp01_le_one (v : ℚ) : clamp01 v ≤ 1 :=
  max_le (by norm_num) (min_le_left _ _)

/-- Claim C1: the per-frame update saves the current candidate rung for the
active hand exactly when the hold accumulated at this frame's save decision
has reached `holdSeconds`; saving in step `left` advances to `right` storing
the left rung, saving in step `right` advances to `done` storing the right
rung, and the step rank never decreases across any update. -/
theorem c1_saves_iff_and_step_forward (g : Grid) (lm? : Option Landmarks) (now : ℚ)
    (mir : Bool) :
    ((update g lm? now mir).2.saved = true ↔
      ∃ a h, saveDecision g lm? now mir = some (a, h) ∧ g.holdSeconds ≤ h) ∧
    (∀ a h, saveDecision g lm? now mir = some (a, h) → g.holdSeconds ≤ h →
      (g.step = Step.left →
        (update g lm? now mir).1.step = Step.right ∧
        (update g lm? now mir).1.leftSaved = some a) ∧
      (g.step = Step.right →
        (update g lm? now mir).1.step = Step.done ∧
        (update g lm? now mir).1.rightSaved = some a)) ∧
    Step.rank g.step ≤ Step.rank (update g lm? now mir).1.step := by
  rcases lm? with _ | lm
  · simp [update, saveDecision, statusOf]
  · rcases h15 : lm 15 with _ | p15
    · simp [update, saveDecision, h15, statusOf]
    · rcases h16 : lm 16 with _ | p16
      · simp [update, saveDecision, h15, h16, statusOf]
      · by_cases hh : g.needsHips = true ∧ hipsVisOK g lm = false
        · simp [update, saveDecision, h15, h16, hh, statusOf]
        · by_cases hv : handsVisOK g p15 p16 = false
          · simp [update, saveDecision, h15, h16, hh, hv, statusOf]
          · rcases ha : activeFor g.step (frameData g p15 p16 now mir) with _ | a
            · simp [update, saveDecision, h15, h16, hh, hv, ha, statusOf, missGrid,
                trackGrid_step]
            · by_cases hs : g.holdSeconds ≤ holdOne g (frameData g p15 p16 now mir) a
              · cases hst : g.step with
                | left =>
                    rw [hst] at ha
                    simp [update, saveDecision, h15, h16, hh, hv, ha, hs, hst, saveGrid,
                      trackGrid_step, trackGrid_leftSaved, trackGrid_rightSaved, Step.rank]
                    exact ⟨a, _, ⟨rfl, rfl⟩, hs⟩
                | right =>
                    rw [hst] at ha
                    simp [update, saveDecision, h15, h16, hh, hv, ha, hs, hst, saveGrid,
                      trackGrid_step, trackGrid_leftSaved, trackGrid_rightSaved, Step.rank]
                    exact ⟨a, _, ⟨rfl, rfl⟩, hs⟩
                | done =>
                    rw [hst] at ha
                    simp [update, saveDecision, h15, h16, hh, hv, ha, hs, hst, saveGrid,
                      trackGrid_step, trackGrid_leftSaved, trackGrid_rightSaved, Step.rank]
                    exact ⟨a, _, ⟨rfl, rfl⟩, hs⟩
              · simp [update, saveDecision, h15, h16, hh, hv, ha, hs, statusOf, holdGrid,
                  trackGrid_step]
                exact not_le.mp hs

theorem c1_witness :
    (update gA1 (some lmHold) 1100 true).1.step = Step.right ∧
    (update gA1 (some lmHold) 1100 true).1.leftSaved = some 1 := by
  have hsd : saveDecision gA1 (some lmHold) 1100 true = some (1, 1/10) := by
    rw [gA1_val]
    norm_num [saveDecision, lmHold, mkLm, hipPtL, hipPtR, hipsVisOK, handsVisOK, visOf,
      clamp01, clamp01opt, hipSample, frameData, nrm, jsDt, emaStep, speedLE, hitIndex,
      hitScan, d2At, activeFor, steadyFor, holdOne, kOnOne, min_def, max_def]
  have hstep : gA1.step = Step.left := by rw [gA1_val]
  have hhold : gA1.holdSeconds ≤ (1/10 : ℚ) := by rw [gA1_val]
  exact (c1_saves_iff_and_step_forward gA1 (some lmHold) 1100 true).2.1 1 (1/10)
    hsd hhold |>.1 hstep

/-- Claim C2 counterexample: in the `cfgB` session after one steady frame the
steadiness counter is 1; the next frame moves the raw wrist fast enough that
its raw speed (0.1 normalized units in 0.1 s, i.e. speed 1) exceeds
`maxSpeedPerSec = 1/2`, yet the counter stays at 1 instead of being rebuilt
from zero, and the very next steady frame reaches `kFrames = 2` and accrues
0.1 s of hold time. -/
theorem c2_counterexample :
    gB1.kOn = 1 ∧
    lmFast 15 = some ⟨7/10, 4/5, 1⟩ ∧
    (frameData gB1 ⟨7/10, 4/5, 1⟩ ⟨1/5, 4/5, 1⟩ 1100 true).steadyL = false ∧
    gB2 = (update gB1 (some lmFast) 1100 true).1 ∧
    gB2.kOn = 1 ∧ ¬ gB2.kOn = 0 ∧
    gB3 = (update gB2 (some lmHold) 1200 true).1 ∧
    gB3.hold = 1/10 ∧ 0 < gB3.hold := by
  refine ⟨by rw [gB1_val], by norm_num [lmFast, mkLm], ?_, rfl, by rw [gB2_val],
    by rw [gB2_val]; norm_num, rfl, by rw [gB3_val], by rw [gB3_val]; norm_num⟩
  rw [gB1_val]
  norm_num [frameData, nrm, jsDt, emaStep, speedLE, clamp01, min_def, max_def]

/-- Claim C2 (amended): on a frame that reaches the hold logic with active
rung `a`, the steadiness counter is first reset to zero only on a candidate
change, is incremented exactly when the frame is steady, and is left
unchanged (not rebuilt from zero) when the raw speed exceeds
`maxSpeedPerSec`; the hold accumulator gains this frame's `dt` exactly when
the counter after this frame's increment has reached `kFrames`. -/
theorem c2_counter_and_accrual (g : Grid) (lm : Landmarks) (p15 p16 : Point2D) (now : ℚ)
    (mir : Bool) (a : Nat)
    (h15 : lm 15 = some p15) (h16 : lm 16 = some p16)
    (hh : ¬(g.needsHips = true ∧ hipsVisOK g lm = false))
    (hv : ¬ handsVisOK g p15 p16 = false)
    (ha : activeFor g.step (frameData g p15 p16 now mir) = some a)
    (hns : ¬ g.holdSeconds ≤ holdOne g (frameData g p15 p16 now mir) a) :
    (update g (some lm) now mir).1.kOn =
      (if steadyFor g.step (frameData g p15 p16 now mir) = true then
        (if g.candidate = some a then g.kOn else 0) + 1
      else (if g.candidate = some a then g.kOn else 0)) ∧
    (update g (some lm) now mir).1.hold =
      (if g.kFrames ≤
          ((if steadyFor g.step (frameData g p15 p16 now mir) = true then
              (if g.candidate = some a then g.kOn else 0) + 1
            else (if g.candidate = some a then g.kOn else 0) : Nat) : ℚ) then
        (if g.candidate = some a then g.hold else 0) + (frameData g p15 p16 now mir).dt
      else (if g.candidate = some a then g.hold else 0)) := by
  have hu : (update g (some lm) now mir).1 = holdGrid g lm (frameData g p15 p16 now mir) now a := by
    simp [update, h15, h16, hh, hv, ha, hns]
  rw [hu]
  constructor
  · show (holdGrid g lm (frameData g p15 p16 now mir) now a).kOn = _
    simp [holdGrid, kOnOne]
  · show (holdGrid g lm (frameData g p15 p16 now mir) now a).hold = _
    simp [holdGrid, holdOne, kOnOne]

theorem c2_witness : (update gB1 (some lmFast) 1100 true).1.kOn = 1 := by
  have h15 : lmFast 15 = some ⟨7/10, 4/5, 1⟩ := by norm_num [lmFast, mkLm]
  have h16 : lmFast 16 = some ⟨1/5, 4/5, 1⟩ := by norm_num [lmFast, mkLm]
  have hh : ¬(gB1.needsHips = true ∧ hipsVisOK gB1 lmFast = false) := by
    rw [gB1_val]
    norm_num [hipsVisOK, lmFast, mkLm, hipPtL, hipPtR, visOf]
  have hv : ¬ handsVisOK gB1 ⟨7/10, 4/5, 1⟩ ⟨1/5, 4/5, 1⟩ = false := by
    rw [gB1_val]
    norm_num [handsVisOK]
  have ha : activeFor gB1.step (frameData gB1 ⟨7/10, 4/5, 1⟩ ⟨1/5, 4/5, 1⟩ 1100 true) =
      some 1 := by
    rw [gB1_val]
    norm_num [activeFor, frameData, nrm, jsDt, emaStep, speedLE, hitIndex, hitScan, d2At,
      clamp01, min_def, max_def]
  have hns : ¬ gB1.holdSeconds ≤ holdOne gB1 (frameData gB1 ⟨7/10, 4/5, 1⟩ ⟨1/5, 4/5, 1⟩ 1100 true) 1 := by
    rw [gB1_val]
    norm_num [holdOne, kOnOne, steadyFor, frameData, nrm, jsDt, emaStep, speedLE,
      clamp01, min_def, max_def]
  have h := (c2_counter_and_accrual gB1 lmFast ⟨7/10, 4/5, 1⟩ ⟨1/5, 4/5, 1⟩ 1100 true 1
    h15 h16 hh hv ha hns).1
  rw [h]
  rw [gB1_val]
  norm_num [steadyFor, frameData, nrm, jsDt, emaStep, speedLE, clamp01, min_def, max_def]

/-- Claim C3 counterexample: after two steady frames the `cfgC` session holds
`_kOn = 2` and `_hold = 0.1`; a frame whose left-wrist landmark is absent
returns zero progress but leaves the whole session state — including the
steadiness counter and the hold accumulator — unchanged instead of resetting
them to zero. -/
theorem c3_counterexample :
    gC2.kOn = 2 ∧ gC2.hold = 1/10 ∧
    lmNoHand 15 = none ∧
    (update gC2 (some lmNoHand) 1200 true).1 = gC2 ∧
    (update gC2 (some lmNoHand) 1200 true).2.progress = 0 ∧
    ¬ (update gC2 (some lmNoHand) 1200 true).1.kOn = 0 ∧
    ¬ (update gC2 (some lmNoHand) 1200 true).1.hold = 0 := by
  have h15 : lmNoHand 15 = none := by norm_num [lmNoHand, mkLm]
  have hu : update gC2 (some lmNoHand) 1200 true = (gC2, statusOf gC2 gC2.step 0) := by
    simp [update, h15]
  refine ⟨by rw [gC2_val], by rw [gC2_val], h15, by rw [hu], ?_, ?_, ?_⟩
  · rw [hu]
    norm_num [statusOf, clamp01, min_def, max_def]
  · rw [hu]
    rw [gC2_val]
    norm_num
  · rw [hu]
    rw [gC2_val]
    norm_num

/-- Claim C3 (amended): every precondition early exit reports zero progress
with `saved = false` and preserves `step`, `leftSaved` and `rightSaved`; the
hip-visibility exit clears the candidate and resets the steadiness counter
and hold accumulator, the hand-visibility exit resets the counter and the
accumulator (after pushing the frame's hip sample), but the missing-landmark
exits leave the entire session state — counters included — unchanged. -/
theorem c3_early_exit_behaviour (g : Grid) (lm : Landmarks) (now : ℚ) (mir : Bool) :
    ((update g none now mir).1 = g ∧ (update g none now mir).2.saved = false ∧
      (update g none now mir).2.progress = 0 ∧ (update g none now mir).2.step = g.step) ∧
    (lm 15 = none ∨ lm 16 = none →
      (update g (some lm) now mir).1 = g ∧ (update g (some lm) now mir).2.saved = false ∧
      (update g (some lm) now mir).2.progress = 0 ∧
      (update g (some lm) now mir).2.step = g.step) ∧
    (∀ p15 p16, lm 15 = some p15 → lm 16 = some p16 →
      g.needsHips = true ∧ hipsVisOK g lm = false →
      (update g (some lm) now mir).1 = { g with candidate := none, kOn := 0, hold := 0 } ∧
      (update g (some lm) now mir).2.saved = false ∧
      (update g (some lm) now mir).2.progress = 0 ∧
      (update g (some lm) now mir).1.step = g.step ∧
      (update g (some lm) now mir).1.leftSaved = g.leftSaved ∧
      (update g (some lm) now mir).1.rightSaved = g.rightSaved) ∧
    (∀ p15 p16, lm 15 = some p15 → lm 16 = some p16 →
      ¬(g.needsHips = true ∧ hipsVisOK g lm = false) → handsVisOK g p15 p16 = false →
      (update g (some lm) now mir).1 =
        { g with neutralSamples := g.neutralSamples ++ [hipSample lm], kOn := 0, hold := 0 } ∧
      (update g (some lm) now mir).2.saved = false ∧
      (update g (some lm) now mir).2.progress = 0 ∧
      (update g (some lm) now mir).1.step = g.step ∧
      (update g (some lm) now mir).1.leftSaved = g.leftSaved ∧
      (update g (some lm) now mir).1.rightSaved = g.rightSaved ∧
      (update g (some lm) now mir).1.candidate = g.candidate) := by
  refine ⟨?_, ?_, ?_, ?_⟩
  · simp [update, statusOf, clamp01]
  · rintro (h15 | h16)
    · simp [update, h15, statusOf, clamp01]
    · rcases h15 : lm 15 with _ | p15
      · simp [update, h15, statusOf, clamp01]
      · simp [update, h15, h16, statusOf, clamp01]
  · intro p15 p16 h15 h16 hh
    simp [update, h15, h16, hh, statusOf, clamp01]
  · intro p15 p16 h15 h16 hh hv
    simp [update, h15, h16, hh, hv, statusOf, clamp01]

theorem c3_witness :
    (update gC1 (some lmNoHand) 1100 true).1 = gC1 ∧
    (update gC1 (some lmNoHand) 1100 true).2.progress = 0 := by
  have h := (c3_early_exit_behaviour gC1 lmNoHand 1100 true).2.1
    (Or.inl (by norm_num [lmNoHand, mkLm]))
  exact ⟨h.1, h.2.2.1⟩

/-- Claim C4 counterexample: a frame passing every precondition whose active
side hits no rung contributes two samples to the neutral pool in a single
frame — the hip maximum (3/4) and then the active hand's smoothed height
(1/2), which is not a hip value — refuting "exactly one sample, equal to the
maximum of the two hip y-values". -/
theorem c4_counterexample :
    (update (create cfgA) (some lmMiss) 1000 true).1.neutralSamples = [3/4, 1/2] ∧
    hipSample lmMiss = 3/4 ∧ ¬ ((1:ℚ)/2 = 3/4) := by
  refine ⟨?_, by norm_num [hipSample, lmMiss, mkLm, hipPtL, hipPtR, clamp01opt, clamp01,
    min_def, max_def], by norm_num⟩
  norm_num [update, trackGrid, missGrid, holdGrid, saveGrid, kOnOne, holdOne, create,
    cfgA, lmMiss, mkLm, hipPtL, hipPtR, hipsVisOK, handsVisOK, visOf, hipSample,
    clamp01opt, clamp01, frameData, nrm, jsDt, emaStep, speedLE, hitIndex, hitScan,
    d2At, nearestRung, nearestScan, activeFor, steadyFor, yHandFor, statusOf,
    List.range_succ, min_def, max_def]

/-- Claim C4 (amended): the missing-landmark and hip-visibility exits add no
neutral sample; every other frame appends the hip sample
`max(clamp01(lm[23].y), clamp01(lm[24].y))`; a frame whose active side hits
no rung additionally appends the smoothed hand height of that side (two
samples on such frames); and the persisted `neutralY` is the arithmetic mean
of the pool, falling back to `yBottom` for an empty pool. -/
theorem c4_neutral_pool (g : Grid) (lm : Landmarks) (now : ℚ) (mir : Bool) (tNow : ℚ) :
    ((update g none now mir).1.neutralSamples = g.neutralSamples) ∧
    (lm 15 = none ∨ lm 16 = none →
      (update g (some lm) now mir).1.neutralSamples = g.neutralSamples) ∧
    (∀ p15 p16, lm 15 = some p15 → lm 16 = some p16 →
      g.needsHips = true ∧ hipsVisOK g lm = false →
      (update g (some lm) now mir).1.neutralSamples = g.neutralSamples) ∧
    (∀ p15 p16, lm 15 = some p15 → lm 16 = some p16 →
      ¬(g.needsHips = true ∧ hipsVisOK g lm = false) → handsVisOK g p15 p16 = false →
      (update g (some lm) now mir).1.neutralSamples =
        g.neutralSamples ++ [hipSample lm]) ∧
    (∀ p15 p16 a, lm 15 = some p15 → lm 16 = some p16 →
      ¬(g.needsHips = true ∧ hipsVisOK g lm = false) → ¬ handsVisOK g p15 p16 = false →
      activeFor g.step (frameData g p15 p16 now mir) = some a →
      (update g (some lm) now mir).1.neutralSamples =
        g.neutralSamples ++ [hipSample lm]) ∧
    (∀ p15 p16, lm 15 = some p15 → lm 16 = some p16 →
      ¬(g.needsHips = true ∧ hipsVisOK g lm = false) → ¬ handsVisOK g p15 p16 = false →
      activeFor g.step (frameData g p15 p16 now mir) = none →
      (update g (some lm) now mir).1.neutralSamples =
        g.neutralSamples ++ [hipSample lm] ++
          [yHandFor g.step (frameData g p15 p16 now mir)]) ∧
    (g.neutralSamples = [] → (saveCalibration g tNow).rom.neutralY = g.yBottom) ∧
    (g.neutralSamples ≠ [] → (saveCalibration g tNow).rom.neutralY =
      g.neutralSamples.sum / (g.neutralSamples.length : ℚ)) := by
  refine ⟨by simp [update], ?_, ?_, ?_, ?_, ?_, ?_, ?_⟩
  · rintro (h15 | h16)
    · simp [update, h15]
    · rcases h15 : lm 15 with _ | p15
      · simp [update, h15]
      · simp [update, h15, h16]
  · intro p15 p16 h15 h16 hh
    simp [update, h15, h16, hh]
  · intro p15 p16 h15 h16 hh hv
    simp [update, h15, h16, hh, hv]
  · intro p15 p16 a h15 h16 hh hv ha
    by_cases hs : g.holdSeconds ≤ holdOne g (frameData g p15 p16 now mir) a
    · cases hst : g.step <;>
        · rw [hst] at ha
          simp [update, h15, h16, hh, hv, ha, hs, hst, saveGrid, trackGrid_neutralSamples]
    · simp [update, h15, h16, hh, hv, ha, hs, holdGrid, trackGrid_neutralSamples]
  · intro p15 p16 h15 h16 hh hv ha
    simp [update, h15, h16, hh, hv, ha, missGrid, trackGrid_neutralSamples]
  · intro hnil
    simp [saveCalibration, hnil]
  · intro hnil
    simp [saveCalibration, hnil]

theorem c4_witness :
    (update gA0 (some lmHold) 1000 true).1.neutralSamples = [] ++ [hipSample lmHold] := by
  have h15 : lmHold 15 = some ⟨4/5, 4/5, 1⟩ := by norm_num [lmHold, mkLm]
  have h16 : lmHold 16 = some ⟨1/5, 4/5, 1⟩ := by norm_num [lmHold, mkLm]
  have hh : ¬(gA0.needsHips = true ∧ hipsVisOK gA0 lmHold = false) := by
    norm_num [gA0, create, cfgA, hipsVisOK, lmHold, mkLm, hipPtL, hipPtR, visOf]
  have hv : ¬ handsVisOK gA0 ⟨4/5, 4/5, 1⟩ ⟨1/5, 4/5, 1⟩ = false := by
    norm_num [gA0, create, cfgA, handsVisOK]
  have ha : activeFor gA0.step (frameData gA0 ⟨4/5, 4/5, 1⟩ ⟨1/5, 4/5, 1⟩ 1000 true) =
      some 1 := by
    norm_num [gA0, create, cfgA, activeFor, frameData, nrm, jsDt, emaStep, speedLE,
      hitIndex, hitScan, d2At, clamp01, List.range_succ, min_def, max_def]
  have h := (c4_neutral_pool gA0 lmHold 1000 true 0).2.2.2.2.1
    ⟨4/5, 4/5, 1⟩ ⟨1/5, 4/5, 1⟩ 1 h15 h16 hh hv ha
  rw [h]
  norm_num [gA0, create, cfgA]

theorem setLevel_targetY (fb : LiveFeedback) (c : CalibrationRecord) (L N : ℕ)
    (h1 : 1 ≤ L) (h2 : L ≤ N) :
    (setLevel fb (L : ℚ) (N : ℚ) (some c)).targetY =
      c.rom.neutralY +
        (15/100 + 50/100 * (((L : ℚ) - 1) / max 1 ((N : ℚ) - 1))) *
          (min c.rom.maxReachLeftY c.rom.maxReachRightY - c.rom.neutralY) := by
  have hL1 : (1 : ℚ) ≤ (L : ℚ) := by exact_mod_cast h1
  have hLN : (L : ℚ) ≤ (N : ℚ) := by exact_mod_cast h2
  have hL0 : (L : ℚ) ≠ 0 := by linarith
  have hN0 : (N : ℚ) ≠ 0 := by linarith
  have hD : (0 : ℚ) < max 1 ((N : ℚ) - 1) := lt_of_lt_of_le one_pos (le_max_left _ _)
  have ht0 : 0 ≤ ((L : ℚ) - 1) / max 1 ((N : ℚ) - 1) := div_nonneg (by linarith) hD.le
  have htle : ((L : ℚ) - 1) / max 1 ((N : ℚ) - 1) ≤ 1 := by
    rw [div_le_one hD]
    calc (L : ℚ) - 1 ≤ (N : ℚ) - 1 := by linarith
    _ ≤ max 1 ((N : ℚ) - 1) := le_max_right _ _
  have hfrac0 : (0 : ℚ) ≤ 15/100 + 50/100 * (((L : ℚ) - 1) / max 1 ((N : ℚ) - 1)) := by
    nlinarith [ht0]
  have hfrac1 : 15/100 + 50/100 * (((L : ℚ) - 1) / max 1 ((N : ℚ) - 1)) ≤ 1 := by
    nlinarith [htle]
  simp only [setLevel, jsOr, if_neg hL0, if_neg hN0, max_eq_right hL1, max_eq_right hLN]
  rw [min_eq_right hfrac1, max_eq_right hfrac0]
  ring

/-- Claim C5 counterexample: with the demo calibration (neutral 0.78, both
maximum reaches 0.18, so `maxReachY < neutralY` as the ladder produces),
moving from level 1 to level 2 of 3 strictly DECREASES `targetY`
(0.69 to 0.54), refuting "monotonically non-decreasing in the level". -/
theorem c5_counterexample :
    (setLevel LiveFeedback.init 2 3 (some calDemo)).targetY <
      (setLevel LiveFeedback.init 1 3 (some calDemo)).targetY := by
  norm_num [setLevel, jsOr, LiveFeedback.init, calDemo, min_def, max_def]

/-- Claim C5 (amended): `targetY` equals
`neutralY + (0.15 + 0.50 * t) * (maxReachY - neutralY)` with
`t = (L-1)/(N-1)` (`t = 0` when `N = 1`) and `maxReachY` the minimum of the
two per-hand maximum-reach heights, hence `0.15` of the span at level 1 and
`0.65` at level `N ≥ 2`; in the level it is monotonically non-INCREASING
whenever `maxReachY ≤ neutralY` (the calibrated situation: reaching higher
means a numerically smaller y) and non-decreasing in the opposite case. -/
theorem c5_target_formula (fb : LiveFeedback) (c : CalibrationRecord) (L N : ℕ)
    (h1 : 1 ≤ L) (h2 : L ≤ N) :
    ((setLevel fb (L : ℚ) (N : ℚ) (some c)).targetY =
      c.rom.neutralY +
        (15/100 + 50/100 * (if N = 1 then 0 else ((L : ℚ) - 1) / ((N : ℚ) - 1))) *
          (min c.rom.maxReachLeftY c.rom.maxReachRightY - c.rom.neutralY)) ∧
    (L = 1 → (setLevel fb (L : ℚ) (N : ℚ) (some c)).targetY =
      c.rom.neutralY +
        15/100 * (min c.rom.maxReachLeftY c.rom.maxReachRightY - c.rom.neutralY)) ∧
    (L = N → 2 ≤ N → (setLevel fb (L : ℚ) (N : ℚ) (some c)).targetY =
      c.rom.neutralY +
        65/100 * (min c.rom.maxReachLeftY c.rom.maxReachRightY - c.rom.neutralY)) ∧
    (∀ L' : ℕ, L ≤ L' → L' ≤ N →
      (min c.rom.maxReachLeftY c.rom.maxReachRightY ≤ c.rom.neutralY →
        (setLevel fb (L' : ℚ) (N : ℚ) (some c)).targetY ≤
          (setLevel fb (L : ℚ) (N : ℚ) (some c)).targetY) ∧
      (c.rom.neutralY ≤ min c.rom.maxReachLeftY c.rom.maxReachRightY →
        (setLevel fb (L : ℚ) (N : ℚ) (some c)).targetY ≤
          (setLevel fb (L' : ℚ) (N : ℚ) (some c)).targetY)) := by
  have key := setLevel_targetY fb c L N h1 h2
  have hDcases : max (1 : ℚ) ((N : ℚ) - 1) = if N = 1 then 1 else (N : ℚ) - 1 := by
    rcases Nat.lt_or_ge N 2 with hN | hN
    · interval_cases N
      · omega
      · simp
    · have : (2 : ℚ) ≤ (N : ℚ) := by exact_mod_cast hN
      rw [if_neg (by omega), max_eq_right (by linarith)]
  refine ⟨?_, ?_, ?_, ?_⟩
  · rw [key, hDcases]
    rcases eq_or_ne N 1 with hN1 | hN1
    · have : L = 1 := by omega
      simp [hN1, this]
    · simp [hN1]
  · intro hL1
    rw [key]
    subst hL1
    norm_num
  · intro hLN hN2
    subst hLN
    have hD2 : max (1 : ℚ) ((L : ℚ) - 1) = (L : ℚ) - 1 := by
      have : (2 : ℚ) ≤ (L : ℚ) := by exact_mod_cast hN2
      exact max_eq_right (by linarith)
    rw [key, hD2, div_self (by
      have : (2 : ℚ) ≤ (L : ℚ) := by exact_mod_cast hN2
      linarith)]
    norm_num
  · intro L' hLL hLN'
    have key' := setLevel_targetY fb c L' N (h1.trans hLL) hLN'
    have hD : (0 : ℚ) < max 1 ((N : ℚ) - 1) := lt_of_lt_of_le one_pos (le_max_left _ _)
    have hcast : (L : ℚ) ≤ (L' : ℚ) := by exact_mod_cast hLL
    have hfr : ((L : ℚ) - 1) / max 1 ((N : ℚ) - 1) ≤
        ((L' : ℚ) - 1) / max 1 ((N : ℚ) - 1) :=
      div_le_div_of_nonneg_right (by linarith) hD.le
    constructor
    · intro hneg
      rw [key, key']
      nlinarith [hfr]
    · intro hpos
      rw [key, key']
      nlinarith [hfr]

theorem c5_witness :
    (setLevel LiveFeedback.init ((3 : ℕ) : ℚ) ((3 : ℕ) : ℚ) (some calDemo)).targetY ≤
      (setLevel LiveFeedback.init ((1 : ℕ) : ℚ) ((3 : ℕ) : ℚ) (some calDemo)).targetY := by
  refine ((c5_target_formula LiveFeedback.init calDemo 1 3 (by norm_num)
    (by norm_num)).2.2.2 3 (by norm_num) (by norm_num)).1 ?_
  norm_num [calDemo]

/-- Claim C6: on every frame that reaches the geometry stage, a hand whose
smoothed point is farther than `hitRadius` (full Euclidean distance with the
fixed lane x-offset, compared in exact squared form) from every rung of its
lane gets active rung `none` (in the session and in the reported status); a
frame whose calibrated side has no active rung reports zero progress and no
save (so the reported progress, always within [0,1], cannot exceed the
previous frame's report); and whenever an active rung is reported it is
within `hitRadius` and its y is nearest the hand's smoothed y among all
rungs. -/
theorem c6_hit_testing (g : Grid) (lm : Landmarks) (p15 p16 : Point2D) (now : ℚ)
    (mir : Bool)
    (h15 : lm 15 = some p15) (h16 : lm 16 = some p16)
    (hh : ¬(g.needsHips = true ∧ hipsVisOK g lm = false))
    (hv : ¬ handsVisOK g p15 p16 = false) :
    ((∀ yy ∈ g.yList, g.hitRadius < 0 ∨ g.hitRadius ^ 2 <
        d2At (frameData g p15 p16 now mir).sL.x (frameData g p15 p16 now mir).sL.y
          g.leftX yy) →
      (update g (some lm) now mir).1.leftActive = none ∧
      ∀ ri, (update g (some lm) now mir).2.rungs = some ri → ri.leftActive = none) ∧
    ((∀ yy ∈ g.yList, g.hitRadius < 0 ∨ g.hitRadius ^ 2 <
        d2At (frameData g p15 p16 now mir).sR.x (frameData g p15 p16 now mir).sR.y
          g.rightX yy) →
      (update g (some lm) now mir).1.rightActive = none ∧
      ∀ ri, (update g (some lm) now mir).2.rungs = some ri → ri.rightActive = none) ∧
    (activeFor g.step (frameData g p15 p16 now mir) = none →
      (update g (some lm) now mir).2.progress = 0 ∧
      (update g (some lm) now mir).2.saved = false) ∧
    (∀ k, (update g (some lm) now mir).1.leftActive = some k →
      ∃ yk, g.yList.get? (k - 1) = some yk ∧ 0 ≤ g.hitRadius ∧
        d2At (frameData g p15 p16 now mir).sL.x (frameData g p15 p16 now mir).sL.y
          g.leftX yk ≤ g.hitRadius ^ 2 ∧
        ∀ yy ∈ g.yList,
          ((frameData g p15 p16 now mir).sL.y - yk) ^ 2 ≤
            ((frameData g p15 p16 now mir).sL.y - yy) ^ 2) ∧
    (∀ k, (update g (some lm) now mir).1.rightActive = some k →
      ∃ yk, g.yList.get? (k - 1) = some yk ∧ 0 ≤ g.hitRadius ∧
        d2At (frameData g p15 p16 now mir).sR.x (frameData g p15 p16 now mir).sR.y
          g.rightX yk ≤ g.hitRadius ^ 2 ∧
        ∀ yy ∈ g.yList,
          ((frameData g p15 p16 now mir).sR.y - yk) ^ 2 ≤
            ((frameData g p15 p16 now mir).sR.y - yy) ^ 2) ∧
    (0 ≤ (update g (some lm) now mir).2.progress ∧
      (update g (some lm) now mir).2.progress ≤ 1) := by
  have hact_l : (update g (some lm) now mir).1.leftActive =
      (frameData g p15 p16 now mir).leftActive := by
    rcases ha : activeFor g.step (frameData g p15 p16 now mir) with _ | a
    · simp [update, h15, h16, hh, hv, ha, missGrid, trackGrid_leftActive]
    · by_cases hs : g.holdSeconds ≤ holdOne g (frameData g p15 p16 now mir) a
      · cases hst : g.step <;>
          · rw [hst] at ha
            simp [update, h15, h16, hh, hv, ha, hs, hst, saveGrid, trackGrid_leftActive]
      · simp [update, h15, h16, hh, hv, ha, hs, holdGrid, trackGrid_leftActive]
  have hact_r : (update g (some lm) now mir).1.rightActive =
      (frameData g p15 p16 now mir).rightActive := by
    rcases ha : activeFor g.step (frameData g p15 p16 now mir) with _ | a
    · simp [update, h15, h16, hh, hv, ha, missGrid, trackGrid_rightActive]
    · by_cases hs : g.holdSeconds ≤ holdOne g (frameData g p15 p16 now mir) a
      · cases hst : g.step <;>
          · rw [hst] at ha
            simp [update, h15, h16, hh, hv, ha, hs, hst, saveGrid, trackGrid_rightActive]
      · simp [update, h15, h16, hh, hv, ha, hs, holdGrid, trackGrid_rightActive]
  have hrungs : ∀ ri, (update g (some lm) now mir).2.rungs = some ri →
      ri.leftActive = (update g (some lm) now mir).1.leftActive ∧
      ri.rightActive = (update g (some lm) now mir).1.rightActive := by
    intro ri hri
    rcases ha : activeFor g.step (frameData g p15 p16 now mir) with _ | a
    · simp only [update, h15, h16] at hri ⊢
      simp only [if_neg hh, if_neg hv, ha] at hri ⊢
      simp [statusOf] at hri
      simp [statusOf, ← hri]
    · by_cases hs : g.holdSeconds ≤ holdOne g (frameData g p15 p16 now mir) a
      · exfalso
        simp [update, h15, h16, hh, hv, ha, hs] at hri
      · simp only [update, h15, h16] at hri ⊢
        simp only [if_neg hh, if_neg hv, ha] at hri ⊢
        simp only [if_neg hs] at hri ⊢
        simp [statusOf] at hri
        simp [statusOf, ← hri]
  have hprog : 0 ≤ (update g (some lm) now mir).2.progress ∧
      (update g (some lm) now mir).2.progress ≤ 1 := by
    rcases ha : activeFor g.step (frameData g p15 p16 now mir) with _ | a
    · simp [update, h15, h16, hh, hv, ha, statusOf, clamp01_nonneg, clamp01_le_one]
    · by_cases hs : g.holdSeconds ≤ holdOne g (frameData g p15 p16 now mir) a
      · simp [update, h15, h16, hh, hv, ha, hs]
      · simp [update, h15, h16, hh, hv, ha, hs, statusOf, clamp01_nonneg, clamp01_le_one]
  have hmiss : activeFor g.step (frameData g p15 p16 now mir) = none →
      (update g (some lm) now mir).2.progress = 0 ∧
      (update g (some lm) now mir).2.saved = false := by
    intro ha
    simp [update, h15, h16, hh, hv, ha, statusOf, clamp01]
  refine ⟨?_, ?_, hmiss, ?_, ?_, hprog⟩
  · intro hfar
    have hnone : (frameData g p15 p16 now mir).leftActive = none := by
      rw [frameData_leftActive]
      exact hitIndex_none_far _ _ _ _ _ hfar
    refine ⟨hact_l.trans hnone, fun ri hri => ?_⟩
    rw [(hrungs ri hri).1, hact_l, hnone]
  · intro hfar
    have hnone : (frameData g p15 p16 now mir).rightActive = none := by
      rw [frameData_rightActive]
      exact hitIndex_none_far _ _ _ _ _ hfar
    refine ⟨hact_r.trans hnone, fun ri hri => ?_⟩
    rw [(hrungs ri hri).2, hact_r, hnone]
  · intro k hk
    rw [hact_l, frameData_leftActive] at hk
    exact hitIndex_nearest _ _ _ _ _ _ hk
  · intro k hk
    rw [hact_r, frameData_rightActive] at hk
    exact hitIndex_nearest _ _ _ _ _ _ hk

theorem c6_witness :
    (update (create cfgA) (some lmMiss) 1000 true).1.leftActive = none ∧
    (update (create cfgA) (some lmMiss) 1000 true).2.progress = 0 := by
  have h15 : lmMiss 15 = some ⟨1/2, 1/2, 1⟩ := by norm_num [lmMiss, mkLm]
  have h16 : lmMiss 16 = some ⟨1/5, 4/5, 1⟩ := by norm_num [lmMiss, mkLm]
  have hh : ¬((create cfgA).needsHips = true ∧ hipsVisOK (create cfgA) lmMiss = false) := by
    norm_num [create, cfgA, hipsVisOK, lmMiss, mkLm, hipPtL, hipPtR, visOf]
  have hv : ¬ handsVisOK (create cfgA) ⟨1/2, 1/2, 1⟩ ⟨1/5, 4/5, 1⟩ = false := by
    norm_num [create, cfgA, handsVisOK]
  have h := c6_hit_testing (create cfgA) lmMiss ⟨1/2, 1/2, 1⟩ ⟨1/5, 4/5, 1⟩ 1000 true
    h15 h16 hh hv
  have hfar : ∀ yy ∈ (create cfgA).yList, (create cfgA).hitRadius < 0 ∨
      (create cfgA).hitRadius ^ 2 <
        d2At (frameData (create cfgA) ⟨1/2, 1/2, 1⟩ ⟨1/5, 4/5, 1⟩ 1000 true).sL.x
          (frameData (create cfgA) ⟨1/2, 1/2, 1⟩ ⟨1/5, 4/5, 1⟩ 1000 true).sL.y
          (create cfgA).leftX yy := by
    intro yy hyy
    right
    have hmem : yy = 4/5 ∨ yy = 4/5 - (2 - 1)⁻¹ * (4/5 - 5⁻¹) := by
      simpa [create, cfgA, List.range_succ] using hyy
    rcases hmem with rfl | rfl <;>
      norm_num [create, cfgA, frameData, nrm, jsDt, emaStep, d2At, clamp01,
        min_def, max_def]
  have hmiss : activeFor (create cfgA).step
      (frameData (create cfgA) ⟨1/2, 1/2, 1⟩ ⟨1/5, 4/5, 1⟩ 1000 true) = none := by
    norm_num [create, cfgA, activeFor, frameData, nrm, jsDt, emaStep, speedLE, hitIndex,
      hitScan, d2At, clamp01, List.range_succ, min_def, max_def]
  exact ⟨(h.1 hfar).1, (h.2.2.1 hmiss).1⟩


/-- Claim C7 (amended): in phase `up`, the success message is selected only
on a frame that reaches the height check, with both wrists within
`targetY + 0.02` and with the counter (after this frame's increment) at
least `requireUpFrames`; a frame that reaches the height check with a
failing wrist resets the counter to zero and selects the correction naming
the faulty side (or both); but a frame that exits earlier in the cascade
(shoulder visibility, shoulder level, elbow straightness, hand visibility)
leaves the whole state — the counter included — unchanged, rather than
resetting it. -/
theorem c7_up_phase_gate (angleAt : Point2D → Point2D → Point2D → ℚ)
    (fb : LiveFeedback) (lm? : Option Landmarks) (hp : fb.phase = Phase.up) :
    (∀ s, (provideShoulderAbductionFeedback angleAt fb lm?).2 = some (s, Severity.success) →
      s = "Nice height! Hold…" ∧
      reachesUpCheck angleAt lm? = true ∧
      fb.requireUpFrames ≤ ((fb.upCounter : ℚ) + 1) ∧
      (provideShoulderAbductionFeedback angleAt fb lm?).1.upCounter = fb.upCounter + 1 ∧
      ∃ lm lw rw, lm? = some lm ∧ lm 15 = some lw ∧ lm 16 = some rw ∧
        lw.y ≤ fb.targetY + 2/100 ∧ rw.y ≤ fb.targetY + 2/100) ∧
    (reachesUpCheck angleAt lm? = false →
      (provideShoulderAbductionFeedback angleAt fb lm?).1 = fb) ∧
    (∀ lm lw rw, lm? = some lm → lm 15 = some lw → lm 16 = some rw →
      reachesUpCheck angleAt lm? = true →
      ¬ (lw.y ≤ fb.targetY + 2/100 ∧ rw.y ≤ fb.targetY + 2/100) →
      (provideShoulderAbductionFeedback angleAt fb lm?).1.upCounter = 0 ∧
      (provideShoulderAbductionFeedback angleAt fb lm?).2 =
        some (if ¬ lw.y ≤ fb.targetY + 2/100 ∧ ¬ rw.y ≤ fb.targetY + 2/100 then
                "Raise both arms higher"
              else if ¬ lw.y ≤ fb.targetY + 2/100 then "Raise your left arm higher"
              else "Raise your right arm higher", Severity.correction)) ∧
    (∀ lm lw rw, lm? = some lm → lm 15 = some lw → lm 16 = some rw →
      reachesUpCheck angleAt lm? = true →
      lw.y ≤ fb.targetY + 2/100 → rw.y ≤ fb.targetY + 2/100 →
      (provideShoulderAbductionFeedback angleAt fb lm?).1.upCounter = fb.upCounter + 1 ∧
      ((provideShoulderAbductionFeedback angleAt fb lm?).2 =
          some ("Nice height! Hold…", Severity.success) ↔
        fb.requireUpFrames ≤ ((fb.upCounter : ℚ) + 1))) := by
  rcases lm? with _ | lm
  · refine ⟨?_, fun _ => rfl, ?_, ?_⟩
    · intro s hs
      simp [provideShoulderAbductionFeedback] at hs
    · rintro lm lw rw ⟨⟩
    · rintro lm lw rw ⟨⟩
  by_cases hvs : isVisible (lm 11) = false ∨ isVisible (lm 12) = false
  · have hres : provideShoulderAbductionFeedback angleAt fb (some lm) =
        (fb, some ("Keep both shoulders visible", Severity.warning)) := by
      simp only [provideShoulderAbductionFeedback]
      rw [if_pos hvs]
    have hreach : reachesUpCheck angleAt (some lm) = false := by
      simp only [reachesUpCheck]
      rw [if_pos hvs]
    refine ⟨?_, fun _ => by rw [hres], ?_, ?_⟩
    · intro s hs
      rw [hres] at hs
      simp at hs
    · intro lm' lw rw' _ _ _ hru
      rw [hreach] at hru
      cases hru
    · intro lm' lw rw' _ _ _ hru _ _
      rw [hreach] at hru
      cases hru
  rcases h11 : lm 11 with _ | ls
  · exact absurd (Or.inl (by simp [isVisible, h11])) hvs
  rcases h12 : lm 12 with _ | rs
  · exact absurd (Or.inr (by simp [isVisible, h12])) hvs
  by_cases hlvl : 5/100 < |ls.y - rs.y|
  · have hres : provideShoulderAbductionFeedback angleAt fb (some lm) =
        (fb, some ("Keep your shoulders level", Severity.correction)) := by
      simp only [provideShoulderAbductionFeedback]
      rw [if_neg hvs]
      simp only [h11, h12]
      rw [if_pos hlvl]
    have hreach : reachesUpCheck angleAt (some lm) = false := by
      simp only [reachesUpCheck]
      rw [if_neg hvs]
      simp only [h11, h12]
      rw [if_pos hlvl]
    refine ⟨?_, fun _ => by rw [hres], ?_, ?_⟩
    · intro s hs
      rw [hres] at hs
      simp at hs
    · intro lm' lw rw' _ _ _ hru
      rw [hreach] at hru
      cases hru
    · intro lm' lw rw' _ _ _ hru _ _
      rw [hreach] at hru
      cases hru
  by_cases hle : leftElbowFires angleAt lm ls = true
  · have hres : provideShoulderAbductionFeedback angleAt fb (some lm) =
        (fb, some ("Straighten your left elbow", Severity.correction)) := by
      simp only [provideShoulderAbductionFeedback]
      rw [if_neg hvs]
      simp only [h11, h12]
      rw [if_neg hlvl, if_pos hle]
    have hreach : reachesUpCheck angleAt (some lm) = false := by
      simp only [reachesUpCheck]
      rw [if_neg hvs]
      simp only [h11, h12]
      rw [if_neg hlvl, if_pos hle]
    refine ⟨?_, fun _ => by rw [hres], ?_, ?_⟩
    · intro s hs
      rw [hres] at hs
      simp at hs
    · intro lm' lw rw' _ _ _ hru
      rw [hreach] at hru
      cases hru
    · intro lm' lw rw' _ _ _ hru _ _
      rw [hreach] at hru
      cases hru
  by_cases hre : rightElbowFires angleAt lm rs = true
  · have hres : provideShoulderAbductionFeedback angleAt fb (some lm) =
        (fb, some ("Straighten your right elbow", Severity.correction)) := by
      simp only [provideShoulderAbductionFeedback]
      rw [if_neg hvs]
      simp only [h11, h12]
      rw [if_neg hlvl, if_neg hle, if_pos hre]
    have hreach : reachesUpCheck angleAt (some lm) = false := by
      simp only [reachesUpCheck]
      rw [if_neg hvs]
      simp only [h11, h12]
      rw [if_neg hlvl, if_neg hle, if_pos hre]
    refine ⟨?_, fun _ => by rw [hres], ?_, ?_⟩
    · intro s hs
      rw [hres] at hs
      simp at hs
    · intro lm' lw rw' _ _ _ hru
      rw [hreach] at hru
      cases hru
    · intro lm' lw rw' _ _ _ hru _ _
      rw [hreach] at hru
      cases hru
  by_cases hwv : isVisible (lm 15) = false ∨ isVisible (lm 16) = false
  · have hres : provideShoulderAbductionFeedback angleAt fb (some lm) =
        (fb, some ("Keep your hands visible", Severity.warning)) := by
      simp only [provideShoulderAbductionFeedback]
      rw [if_neg hvs]
      simp only [h11, h12]
      rw [if_neg hlvl, if_neg hle, if_neg hre, if_pos hwv]
    have hreach : reachesUpCheck angleAt (some lm) = false := by
      simp only [reachesUpCheck]
      rw [if_neg hvs]
      simp only [h11, h12]
      rw [if_neg hlvl, if_neg hle, if_neg hre, if_pos hwv]
    refine ⟨?_, fun _ => by rw [hres], ?_, ?_⟩
    · intro s hs
      rw [hres] at hs
      simp at hs
    · intro lm' lw rw' _ _ _ hru
      rw [hreach] at hru
      cases hru
    · intro lm' lw rw' _ _ _ hru _ _
      rw [hreach] at hru
      cases hru
  rcases h15 : lm 15 with _ | lw0
  · exact absurd (Or.inl (by simp [isVisible, h15])) hwv
  rcases h16 : lm 16 with _ | rw0
  · exact absurd (Or.inr (by simp [isVisible, h16])) hwv
  have hreach : reachesUpCheck angleAt (some lm) = true := by
    simp only [reachesUpCheck]
    rw [if_neg hvs]
    simp only [h11, h12]
    rw [if_neg hlvl, if_neg hle, if_neg hre, if_neg hwv]
  have hbase : provideShoulderAbductionFeedback angleAt fb (some lm) =
      (if ¬ lw0.y ≤ fb.targetY + 2/100 ∧ ¬ rw0.y ≤ fb.targetY + 2/100 then
        ({ fb with upCounter := 0 }, some ("Raise both arms higher", Severity.correction))
      else if ¬ lw0.y ≤ fb.targetY + 2/100 then
        ({ fb with upCounter := 0 }, some ("Raise your left arm higher", Severity.correction))
      else if ¬ rw0.y ≤ fb.targetY + 2/100 then
        ({ fb with upCounter := 0 }, some ("Raise your right arm higher", Severity.correction))
      else if fb.requireUpFrames ≤ ((fb.upCounter + 1 : ℕ) : ℚ) then
        ({ fb with upCounter := fb.upCounter + 1 },
          some ("Nice height! Hold…", Severity.success))
      else ({ fb with upCounter := fb.upCounter + 1 }, none)) := by
    simp only [provideShoulderAbductionFeedback]
    rw [if_neg hvs]
    simp only [h11, h12]
    rw [if_neg hlvl, if_neg hle, if_neg hre, if_neg hwv]
    simp only [h15, h16, hp]
  by_cases hl : lw0.y ≤ fb.targetY + 2/100 <;> by_cases hr : rw0.y ≤ fb.targetY + 2/100
  · -- both wrists up
    have hres : provideShoulderAbductionFeedback angleAt fb (some lm) =
        (if fb.requireUpFrames ≤ ((fb.upCounter + 1 : ℕ) : ℚ) then
          ({ fb with upCounter := fb.upCounter + 1 },
            some ("Nice height! Hold…", Severity.success))
        else ({ fb with upCounter := fb.upCounter + 1 }, none)) := by
      rw [hbase, if_neg (by tauto), if_neg (by tauto), if_neg (by tauto)]
    have hcast : (((fb.upCounter + 1 : ℕ) : ℚ) = (fb.upCounter : ℚ) + 1) := by push_cast; ring
    by_cases hreq : fb.requireUpFrames ≤ ((fb.upCounter : ℚ) + 1)
    · have hres2 : provideShoulderAbductionFeedback angleAt fb (some lm) =
          ({ fb with upCounter := fb.upCounter + 1 },
            some ("Nice height! Hold…", Severity.success)) := by
        rw [hres, if_pos (by rw [hcast]; exact hreq)]
      refine ⟨?_, ?_, ?_, ?_⟩
      · intro s hs
        rw [hres2] at hs
        obtain rfl : s = "Nice height! Hold…" := by
          have := Option.some.inj hs
          exact (congrArg Prod.fst this).symm
        exact ⟨rfl, hreach, hreq, by rw [hres2], lm, lw0, rw0, rfl, h15, h16, hl, hr⟩
      · intro hru
        rw [hreach] at hru
        cases hru
      · intro lm' lw rw' heq h15' h16' _ hfail
        obtain rfl := Option.some.inj heq
        rw [h15] at h15'
        obtain rfl := Option.some.inj h15'
        rw [h16] at h16'
        obtain rfl := Option.some.inj h16'
        exact absurd ⟨hl, hr⟩ hfail
      · intro lm' lw rw' heq h15' h16' _ _ _
        rw [hres2]
        simp [hreq]
    · have hres2 : provideShoulderAbductionFeedback angleAt fb (some lm) =
          ({ fb with upCounter := fb.upCounter + 1 }, none) := by
        rw [hres, if_neg (by rw [hcast]; exact hreq)]
      refine ⟨?_, ?_, ?_, ?_⟩
      · intro s hs
        rw [hres2] at hs
        cases hs
      · intro hru
        rw [hreach] at hru
        cases hru
      · intro lm' lw rw' heq h15' h16' _ hfail
        obtain rfl := Option.some.inj heq
        rw [h15] at h15'
        obtain rfl := Option.some.inj h15'
        rw [h16] at h16'
        obtain rfl := Option.some.inj h16'
        exact absurd ⟨hl, hr⟩ hfail
      · intro lm' lw rw' heq h15' h16' _ _ _
        rw [hres2]
        simp [hreq]
  · -- left up, right failing
    have hres : provideShoulderAbductionFeedback angleAt fb (some lm) =
        ({ fb with upCounter := 0 },
          some ("Raise your right arm higher", Severity.correction)) := by
      rw [hbase, if_neg (by tauto), if_neg (by tauto), if_pos (by tauto)]
    refine ⟨?_, ?_, ?_, ?_⟩
    · intro s hs
      rw [hres] at hs
      simp at hs
    · intro hru
      rw [hreach] at hru
      cases hru
    · intro lm' lw rw' heq h15' h16' _ _
      obtain rfl := Option.some.inj heq
      rw [h15] at h15'
      obtain rfl := Option.some.inj h15'
      rw [h16] at h16'
      obtain rfl := Option.some.inj h16'
      rw [hres]
      exact ⟨rfl, by rw [if_neg (by tauto), if_neg (by tauto)]⟩
    · intro lm' lw rw' heq h15' h16' _ _ hr'
      obtain rfl := Option.some.inj heq
      rw [h16] at h16'
      obtain rfl := Option.some.inj h16'
      exact absurd hr' hr
  · -- left failing, right up
    have hres : provideShoulderAbductionFeedback angleAt fb (some lm) =
        ({ fb with upCounter := 0 },
          some ("Raise your left arm higher", Severity.correction)) := by
      rw [hbase, if_neg (by tauto), if_pos (by tauto)]
    refine ⟨?_, ?_, ?_, ?_⟩
    · intro s hs
      rw [hres] at hs
      simp at hs
    · intro hru
      rw [hreach] at hru
      cases hru
    · intro lm' lw rw' heq h15' h16' _ _
      obtain rfl := Option.some.inj heq
      rw [h15] at h15'
      obtain rfl := Option.some.inj h15'
      rw [h16] at h16'
      obtain rfl := Option.some.inj h16'
      rw [hres]
      exact ⟨rfl, by rw [if_neg (by tauto), if_pos (by tauto)]⟩
    · intro lm' lw rw' heq h15' h16' _ hl' _
      obtain rfl := Option.some.inj heq
      rw [h15] at h15'
      obtain rfl := Option.some.inj h15'
      exact absurd hl' hl
  · -- both failing
    have hres : provideShoulderAbductionFeedback angleAt fb (some lm) =
        ({ fb with upCounter := 0 },
          some ("Raise both arms higher", Severity.correction)) := by
      rw [hbase, if_pos (by tauto)]
    refine ⟨?_, ?_, ?_, ?_⟩
    · intro s hs
      rw [hres] at hs
      simp at hs
    · intro hru
      rw [hreach] at hru
      cases hru
    · intro lm' lw rw' heq h15' h16' _ _
      obtain rfl := Option.some.inj heq
      rw [h15] at h15'
      obtain rfl := Option.some.inj h15'
      rw [h16] at h16'
      obtain rfl := Option.some.inj h16'
      rw [hres]
      exact ⟨rfl, by rw [if_pos (by tauto)]⟩
    · intro lm' lw rw' heq h15' h16' _ hl' _
      obtain rfl := Option.some.inj heq
      rw [h15] at h15'
      obtain rfl := Option.some.inj h15'
      exact absurd hl' hl

/-- Claim C7 counterexample: from the constructor state, four both-up frames
bring the up-counter to 4; one frame with tilted shoulders and both wrists
far below target yields the shoulders-level correction and leaves the
counter at 4 instead of resetting it (and names no faulty arm); the very
next both-up frame then triggers the success message although the previous
`requireUpFrames = 5` frames were not all above target. -/
theorem c7_counterexample :
    fbU4.upCounter = 4 ∧
    lmTilted 15 = some ⟨3/10, 9/10, 1⟩ ∧
    ¬ ((9:ℚ)/10 ≤ fbU4.targetY + 2/100) ∧
    (provideShoulderAbductionFeedback angleFlat fbU4 (some lmTilted)).2 =
      some ("Keep your shoulders level", Severity.correction) ∧
    fbU5.upCounter = 4 ∧ ¬ fbU5.upCounter = 0 ∧
    (provideShoulderAbductionFeedback angleFlat fbU5 (some lmUp)).2 =
      some ("Nice height! Hold…", Severity.success) := by
  refine ⟨by rw [fbU4_val], by norm_num [lmTilted, mkLmFb], ?_,
    by rw [fbTilted_val], by rw [fbU5_val], by rw [fbU5_val]; norm_num, ?_⟩
  · rw [fbU4_val]
    norm_num [LiveFeedback.init]
  · rw [fbSuccess_val]

theorem c7_witness :
    (provideShoulderAbductionFeedback angleFlat LiveFeedback.init (some lmUp)).1.upCounter =
      LiveFeedback.init.upCounter + 1 := by
  have h15 : lmUp 15 = some ⟨3/10, 1/2, 1⟩ := by norm_num [lmUp, mkLmFb]
  have h16 : lmUp 16 = some ⟨7/10, 1/2, 1⟩ := by norm_num [lmUp, mkLmFb]
  have hreach : reachesUpCheck angleFlat (some lmUp) = true := by
    norm_num [reachesUpCheck, lmUp, mkLmFb, isVisible, leftElbowFires, rightElbowFires,
      calculateAngle, angleFlat, abs_sub_le_iff]
  exact ((c7_up_phase_gate angleFlat LiveFeedback.init (some lmUp) rfl).2.2.2
    lmUp ⟨3/10, 1/2, 1⟩ ⟨7/10, 1/2, 1⟩ rfl h15 h16 hreach
    (by norm_num [LiveFeedback.init]) (by norm_num [LiveFeedback.init])).1

theorem statusOf_countdown (g' : Grid) (side : Step) (p : ℚ) (h : 0 ≤ g'.holdSeconds) :
    (statusOf g' side p).countdown = g'.holdSeconds * (1 - (statusOf g' side p).progress) := by
  show max 0 (g'.holdSeconds * (1 - clamp01 p)) = g'.holdSeconds * (1 - clamp01 p)
  exact max_eq_right (mul_nonneg h (by linarith [clamp01_le_one p]))

/-- Claim C8 (amended): every per-frame update returns a status with the
side being calibrated, the saved flag, a progress in [0,1], a countdown
equal to `holdSeconds * (1 - progress)`, and the current step; every
NON-saving frame additionally carries both hands' active-rung and saved-rung
indices, but the saving frame's status object omits those four fields (it
reports `progress = 1`, `countdown = 0` and no rung information). -/
theorem c8_status_shape (g : Grid) (lm? : Option Landmarks) (now : ℚ) (mir : Bool)
    (hhs : 0 ≤ g.holdSeconds) :
    (update g lm? now mir).2.ok = true ∧
    (update g lm? now mir).2.side = g.step ∧
    (update g lm? now mir).2.step = (update g lm? now mir).1.step ∧
    (0 ≤ (update g lm? now mir).2.progress ∧ (update g lm? now mir).2.progress ≤ 1) ∧
    (update g lm? now mir).2.countdown =
      g.holdSeconds * (1 - (update g lm? now mir).2.progress) ∧
    ((update g lm? now mir).2.saved = false →
      (update g lm? now mir).2.rungs = some
        { leftActive := (update g lm? now mir).1.leftActive
          rightActive := (update g lm? now mir).1.rightActive
          leftSaved := (update g lm? now mir).1.leftSaved
          rightSaved := (update g lm? now mir).1.rightSaved }) ∧
    ((update g lm? now mir).2.saved = true →
      (update g lm? now mir).2.rungs = none ∧
      (update g lm? now mir).2.progress = 1 ∧ (update g lm? now mir).2.countdown = 0) := by
  rcases update_shape g lm? now mir with ⟨-, hu⟩ | ⟨lm, p15, p16, -, -, -, -, hu⟩ |
    ⟨lm, p15, p16, -, -, -, -, -, hu⟩ | ⟨lm, p15, p16, -, -, -, -, -, -, hu⟩ |
    ⟨lm, p15, p16, a, -, -, -, -, -, -, -, hu⟩ | ⟨lm, p15, p16, a, -, -, -, -, -, -, -, hu⟩
  · rw [hu]
    refine ⟨rfl, rfl, rfl, ⟨clamp01_nonneg _, clamp01_le_one _⟩, ?_, fun _ => rfl,
      fun hsv => nomatch hsv⟩
    exact statusOf_countdown g g.step 0 hhs
  · rw [hu]
    refine ⟨rfl, rfl, rfl, ⟨clamp01_nonneg _, clamp01_le_one _⟩, ?_, fun _ => rfl,
      fun hsv => nomatch hsv⟩
    exact statusOf_countdown { g with candidate := none, kOn := 0, hold := 0 } g.step 0 hhs
  · rw [hu]
    refine ⟨rfl, rfl, rfl, ⟨clamp01_nonneg _, clamp01_le_one _⟩, ?_, fun _ => rfl,
      fun hsv => nomatch hsv⟩
    exact statusOf_countdown
      { g with neutralSamples := g.neutralSamples ++ [hipSample lm], kOn := 0, hold := 0 }
      g.step 0 hhs
  · rw [hu]
    refine ⟨rfl, rfl, ?_, ⟨clamp01_nonneg _, clamp01_le_one _⟩, ?_, fun _ => rfl,
      fun hsv => nomatch hsv⟩
    · show (missGrid g lm (frameData g p15 p16 now mir) now).step = _
      rfl
    · have hh' : 0 ≤ (missGrid g lm (frameData g p15 p16 now mir) now).holdSeconds := by
        show 0 ≤ (trackGrid g lm (frameData g p15 p16 now mir) now).holdSeconds
        rw [trackGrid_holdSeconds]
        exact hhs
      have := statusOf_countdown (missGrid g lm (frameData g p15 p16 now mir) now) g.step 0 hh'
      rw [this]
      show (trackGrid g lm (frameData g p15 p16 now mir) now).holdSeconds * _ = _
      rw [trackGrid_holdSeconds]
  · rw [hu]
    refine ⟨rfl, rfl, rfl, ⟨by norm_num, by norm_num⟩, ?_, ?_, fun _ => ⟨rfl, rfl, rfl⟩⟩
    · show (0:ℚ) = g.holdSeconds * (1 - 1)
      ring
    · intro hsv
      exact absurd hsv (by simp)
  · rw [hu]
    refine ⟨rfl, rfl, ?_, ⟨clamp01_nonneg _, clamp01_le_one _⟩, ?_, fun _ => rfl,
      fun hsv => nomatch hsv⟩
    · show (holdGrid g lm (frameData g p15 p16 now mir) now a).step = _
      rfl
    · have hh' : 0 ≤ (holdGrid g lm (frameData g p15 p16 now mir) now a).holdSeconds := by
        show 0 ≤ (trackGrid g lm (frameData g p15 p16 now mir) now).holdSeconds
        rw [trackGrid_holdSeconds]
        exact hhs
      have := statusOf_countdown (holdGrid g lm (frameData g p15 p16 now mir) now a) g.step
        (holdOne g (frameData g p15 p16 now mir) a / g.holdSeconds) hh'
      rw [this]
      show (trackGrid g lm (frameData g p15 p16 now mir) now).holdSeconds * _ = _
      rw [trackGrid_holdSeconds]

/-- Claim C8 counterexample: the frame on which the left rung saves returns
`saved = true` with NO rung-index fields (`rungs = none`), although the
session at that moment has a freshly saved left rung and active rungs to
report. -/
theorem c8_counterexample :
    (update gA1 (some lmHold) 1100 true).2.saved = true ∧
    (update gA1 (some lmHold) 1100 true).2.rungs = none ∧
    gA2.leftSaved = some 1 ∧ gA2.leftActive = some 1 := by
  refine ⟨?_, ?_, by rw [gA2_val], by rw [gA2_val]⟩ <;> rw [stA2_val]

theorem c8_witness :
    (update gA0 (some lmHold) 1000 true).2.countdown =
      gA0.holdSeconds * (1 - (update gA0 (some lmHold) 1000 true).2.progress) := by
  have hhs : (0:ℚ) ≤ gA0.holdSeconds := by norm_num [gA0, create, cfgA]
  exact (c8_status_shape gA0 (some lmHold) 1000 true hhs).2.2.2.2.1

theorem missGrid_step (g : Grid) (lm : Landmarks) (fd : FrameData) (now : ℚ) :
    (missGrid g lm fd now).step = g.step := trackGrid_step g lm fd now

theorem missGrid_leftSaved (g : Grid) (lm : Landmarks) (fd : FrameData) (now : ℚ) :
    (missGrid g lm fd now).leftSaved = g.leftSaved := trackGrid_leftSaved g lm fd now

theorem missGrid_rightSaved (g : Grid) (lm : Landmarks) (fd : FrameData) (now : ℚ) :
    (missGrid g lm fd now).rightSaved = g.rightSaved := trackGrid_rightSaved g lm fd now

theorem holdGrid_step (g : Grid) (lm : Landmarks) (fd : FrameData) (now : ℚ) (a : Nat) :
    (holdGrid g lm fd now a).step = g.step := trackGrid_step g lm fd now

theorem holdGrid_leftSaved (g : Grid) (lm : Landmarks) (fd : FrameData) (now : ℚ) (a : Nat) :
    (holdGrid g lm fd now a).leftSaved = g.leftSaved := trackGrid_leftSaved g lm fd now

theorem holdGrid_rightSaved (g : Grid) (lm : Landmarks) (fd : FrameData) (now : ℚ) (a : Nat) :
    (holdGrid g lm fd now a).rightSaved = g.rightSaved := trackGrid_rightSaved g lm fd now

theorem saveGrid_left_case (g : Grid) (lm : Landmarks) (fd : FrameData) (now : ℚ) (a : Nat)
    (hst : g.step = Step.left) :
    (saveGrid g lm fd now a).step = Step.right ∧
    (saveGrid g lm fd now a).leftSaved = some a ∧
    (saveGrid g lm fd now a).rightSaved = g.rightSaved := by
  simp only [saveGrid, hst]
  exact ⟨trivial, trivial, trackGrid_rightSaved g lm fd now⟩

theorem saveGrid_other_case (g : Grid) (lm : Landmarks) (fd : FrameData) (now : ℚ) (a : Nat)
    (hst : g.step ≠ Step.left) :
    (saveGrid g lm fd now a).step = Step.done ∧
    (saveGrid g lm fd now a).rightSaved = some a ∧
    (saveGrid g lm fd now a).leftSaved = g.leftSaved := by
  cases hs2 : g.step with
  | left => exact absurd hs2 hst
  | right =>
      simp only [saveGrid, hs2]
      exact ⟨trivial, trivial, trackGrid_leftSaved g lm fd now⟩
  | done =>
      simp only [saveGrid, hs2]
      exact ⟨trivial, trivial, trackGrid_leftSaved g lm fd now⟩

theorem doneInv_create (c : Config) : doneInv (create c) := by
  refine ⟨fun hs => ?_, fun hs => ?_⟩
  · rcases hs with hs | hs <;> simp [create] at hs
  · simp [create] at hs

theorem doneInv_update (g : Grid) (lm? : Option Landmarks) (now : ℚ) (mir : Bool)
    (h : doneInv g) : doneInv (update g lm? now mir).1 := by
  rcases update_shape g lm? now mir with ⟨-, hu⟩ | ⟨lm, p15, p16, -, -, -, -, hu⟩ |
    ⟨lm, p15, p16, -, -, -, -, -, hu⟩ | ⟨lm, p15, p16, -, -, -, -, -, -, hu⟩ |
    ⟨lm, p15, p16, a, -, -, -, -, -, -, -, hu⟩ |
    ⟨lm, p15, p16, a, -, -, -, -, -, -, -, hu⟩ <;> rw [hu]
  · exact h
  · exact h
  · exact h
  · show doneInv (missGrid g lm (frameData g p15 p16 now mir) now)
    refine ⟨fun hs => ?_, fun hs => ?_⟩
    · rw [missGrid_step] at hs
      rw [missGrid_leftSaved]
      exact h.1 hs
    · rw [missGrid_step] at hs
      rw [missGrid_rightSaved]
      exact h.2 hs
  · show doneInv (saveGrid g lm (frameData g p15 p16 now mir) now a)
    by_cases hst : g.step = Step.left
    · obtain ⟨h1, h2, -⟩ := saveGrid_left_case g lm (frameData g p15 p16 now mir) now a hst
      exact ⟨fun _ => by rw [h2]; simp, fun hd => nomatch h1.symm.trans hd⟩
    · obtain ⟨h1, h2, h3⟩ := saveGrid_other_case g lm (frameData g p15 p16 now mir) now a hst
      refine ⟨fun _ => ?_, fun _ => ?_⟩
      · rw [h3]
        refine h.1 ?_
        cases hs2 : g.step with
        | left => exact absurd hs2 hst
        | right => exact Or.inl rfl
        | done => exact Or.inr rfl
      · rw [h2]
        simp
  · show doneInv (holdGrid g lm (frameData g p15 p16 now mir) now a)
    refine ⟨fun hs => ?_, fun hs => ?_⟩
    · rw [holdGrid_step] at hs
      rw [holdGrid_leftSaved]
      exact h.1 hs
    · rw [holdGrid_step] at hs
      rw [holdGrid_rightSaved]
      exact h.2 hs

theorem doneInv_reachable (c : Config) (g : Grid) (hr : Reachable (create c) g) :
    doneInv g := by
  induction hr with
  | refl => exact doneInv_create c
  | step g2 lm? now mir _ ih => exact doneInv_update g2 lm? now mir ih

/-- Claim C9: the persisted record is only written once the ladder step has
reached `done`, and in every session state reachable from `create` whose step
is `done`, the record built by `saveCalibration` has BOTH `leftIndex` and
`rightIndex` set (hence in particular the "both null or both set" disjunction
holds, on its "both set" side). -/
theorem c9_record_complete (c : Config) (g : Grid) (tNow : ℚ)
    (hr : Reachable (create c) g) (hd : g.step = Step.done) :
    (saveCalibration g tNow).leftIndex ≠ none ∧
    (saveCalibration g tNow).rightIndex ≠ none ∧
    ((saveCalibration g tNow).leftIndex = none ∧ (saveCalibration g tNow).rightIndex = none ∨
      (saveCalibration g tNow).leftIndex ≠ none ∧ (saveCalibration g tNow).rightIndex ≠ none) := by
  have h := doneInv_reachable c g hr
  have hl : g.leftSaved ≠ none := h.1 (Or.inr hd)
  have hri : g.rightSaved ≠ none := h.2 hd
  exact ⟨hl, hri, Or.inr ⟨hl, hri⟩⟩

theorem c9_witness :
    Reachable (create cfgA) gA3 ∧ gA3.step = Step.done ∧
    (saveCalibration gA3 5000).leftIndex ≠ none ∧
    (saveCalibration gA3 5000).rightIndex ≠ none := by
  have hr : Reachable (create cfgA) gA3 :=
    Reachable.step gA2 (some lmHold) 1200 true
      (Reachable.step gA1 (some lmHold) 1100 true
        (Reachable.step gA0 (some lmHold) 1000 true Reachable.refl))
  have hd : gA3.step = Step.done := by rw [gA3_val]
  have h := c9_record_complete cfgA gA3 5000 hr hd
  exact ⟨hr, hd, h.1, h.2.1⟩

theorem trackGrid_candidate (g : Grid) (lm : Landmarks) (fd : FrameData) (now : ℚ) :
    (trackGrid g lm fd now).candidate = g.candidate := by
  simp only [trackGrid]; split <;> split <;> rfl

theorem trackGrid_maxRungL (g : Grid) (lm : Landmarks) (fd : FrameData) (now : ℚ) :
    (trackGrid g lm fd now).maxRungL = g.maxRungL ∨
    (trackGrid g lm fd now).maxRungL = some (nearestRung g.yList fd.sL.y) := by
  simp only [trackGrid]; split <;> split <;> simp

theorem trackGrid_maxRungR (g : Grid) (lm : Landmarks) (fd : FrameData) (now : ℚ) :
    (trackGrid g lm fd now).maxRungR = g.maxRungR ∨
    (trackGrid g lm fd now).maxRungR = some (nearestRung g.yList fd.sR.y) := by
  simp only [trackGrid]; split <;> split <;> simp

theorem rangeInv_trackGrid (g : Grid) (lm : Landmarks) (fd : FrameData) (now : ℚ)
    (h : rangeInv g) (hL : optInRange g.count fd.leftActive)
    (hR : optInRange g.count fd.rightActive) : rangeInv (trackGrid g lm fd now) := by
  obtain ⟨h1, h2, h3, h4, h5, h6, h7, h8, h9⟩ := h
  have hyl : g.yList ≠ [] := by
    intro hnil
    rw [hnil] at h2
    simp at h2
    omega
  refine ⟨?_, ?_, ?_, ?_, ?_, ?_, ?_, ?_, ?_⟩
  · rw [trackGrid_count]; exact h1
  · rw [trackGrid_yList, trackGrid_count]; exact h2
  · rw [trackGrid_count, trackGrid_leftActive]; exact hL
  · rw [trackGrid_count, trackGrid_rightActive]; exact hR
  · rw [trackGrid_count, trackGrid_leftSaved]; exact h5
  · rw [trackGrid_count, trackGrid_rightSaved]; exact h6
  · rw [trackGrid_count, trackGrid_candidate]; exact h7
  · rw [trackGrid_count]
    rcases trackGrid_maxRungL g lm fd now with hm | hm
    · rw [hm]; exact h8
    · rw [hm]
      intro n hn
      obtain rfl : nearestRung g.yList fd.sL.y = n := by injection hn
      have hnr := nearestRung_range g.yList fd.sL.y hyl
      exact ⟨hnr.1, by rw [← h2]; exact hnr.2⟩
  · rw [trackGrid_count]
    rcases trackGrid_maxRungR g lm fd now with hm | hm
    · rw [hm]; exact h9
    · rw [hm]
      intro n hn
      obtain rfl : nearestRung g.yList fd.sR.y = n := by injection hn
      have hnr := nearestRung_range g.yList fd.sR.y hyl
      exact ⟨hnr.1, by rw [← h2]; exact hnr.2⟩

theorem rangeInv_missGrid (g : Grid) (lm : Landmarks) (fd : FrameData) (now : ℚ)
    (h : rangeInv (trackGrid g lm fd now)) : rangeInv (missGrid g lm fd now) := by
  obtain ⟨h1, h2, h3, h4, h5, h6, -, h8, h9⟩ := h
  refine ⟨h1, h2, h3, h4, h5, h6, ?_, h8, h9⟩
  intro n hn
  exact nomatch hn

theorem rangeInv_holdGrid (g : Grid) (lm : Landmarks) (fd : FrameData) (now : ℚ) (a : Nat)
    (h : rangeInv (trackGrid g lm fd now)) (ha : 1 ≤ a ∧ a ≤ g.count) :
    rangeInv (holdGrid g lm fd now a) := by
  obtain ⟨h1, h2, h3, h4, h5, h6, -, h8, h9⟩ := h
  refine ⟨h1, h2, h3, h4, h5, h6, ?_, h8, h9⟩
  intro n hn
  have hn2 : some a = some n := hn
  obtain rfl : a = n := by injection hn2
  refine ⟨ha.1, ?_⟩
  show a ≤ (trackGrid g lm fd now).count
  rw [trackGrid_count]
  exact ha.2

theorem rangeInv_saveGrid (g : Grid) (lm : Landmarks) (fd : FrameData) (now : ℚ) (a : Nat)
    (h : rangeInv (trackGrid g lm fd now)) (ha : 1 ≤ a ∧ a ≤ g.count) :
    rangeInv (saveGrid g lm fd now a) := by
  obtain ⟨h1, h2, h3, h4, h5, h6, -, h8, h9⟩ := h
  cases hst : g.step with
  | left =>
      simp only [saveGrid, hst]
      refine ⟨h1, h2, h3, h4, ?_, h6, ?_, h8, h9⟩
      · intro n hn
        have hn2 : some a = some n := hn
        obtain rfl : a = n := by injection hn2
        refine ⟨ha.1, ?_⟩
        show a ≤ (trackGrid g lm fd now).count
        rw [trackGrid_count]
        exact ha.2
      · intro n hn
        exact nomatch hn
  | right =>
      simp only [saveGrid, hst]
      refine ⟨h1, h2, h3, h4, h5, ?_, ?_, h8, h9⟩
      · intro n hn
        have hn2 : some a = some n := hn
        obtain rfl : a = n := by injection hn2
        refine ⟨ha.1, ?_⟩
        show a ≤ (trackGrid g lm fd now).count
        rw [trackGrid_count]
        exact ha.2
      · intro n hn
        exact nomatch hn
  | done =>
      simp only [saveGrid, hst]
      refine ⟨h1, h2, h3, h4, h5, ?_, ?_, h8, h9⟩
      · intro n hn
        have hn2 : some a = some n := hn
        obtain rfl : a = n := by injection hn2
        refine ⟨ha.1, ?_⟩
        show a ≤ (trackGrid g lm fd now).count
        rw [trackGrid_count]
        exact ha.2
      · intro n hn
        exact nomatch hn

theorem rangeInv_create (c : Config) (hc : 1 ≤ c.count) : rangeInv (create c) := by
  refine ⟨hc, ?_, ?_, ?_, ?_, ?_, ?_, ?_, ?_⟩
  · simp only [create, List.length_map, List.length_range]
  all_goals intro n hn
  all_goals exact nomatch hn

theorem rangeInv_update (g : Grid) (lm? : Option Landmarks) (now : ℚ) (mir : Bool)
    (h : rangeInv g) : rangeInv (update g lm? now mir).1 := by
  rcases update_shape g lm? now mir with ⟨-, hu⟩ | ⟨lm, p15, p16, -, -, -, -, hu⟩ |
    ⟨lm, p15, p16, -, -, -, -, -, hu⟩ | ⟨lm, p15, p16, -, -, -, -, -, -, hu⟩ |
    ⟨lm, p15, p16, a, -, -, -, -, -, ha, -, hu⟩ |
    ⟨lm, p15, p16, a, -, -, -, -, -, ha, -, hu⟩ <;> rw [hu]
  · exact h
  · obtain ⟨h1, h2, h3, h4, h5, h6, -, h8, h9⟩ := h
    refine ⟨h1, h2, h3, h4, h5, h6, ?_, h8, h9⟩
    intro n hn
    exact nomatch hn
  · exact h
  · show rangeInv (missGrid g lm (frameData g p15 p16 now mir) now)
    refine rangeInv_missGrid g lm (frameData g p15 p16 now mir) now
      (rangeInv_trackGrid g lm (frameData g p15 p16 now mir) now h ?_ ?_)
    · intro n hn
      rw [frameData_leftActive] at hn
      have hh := hitIndex_range g.yList g.hitRadius _ _ g.leftX n hn
      exact ⟨hh.1, by rw [← h.2.1]; exact hh.2⟩
    · intro n hn
      rw [frameData_rightActive] at hn
      have hh := hitIndex_range g.yList g.hitRadius _ _ g.rightX n hn
      exact ⟨hh.1, by rw [← h.2.1]; exact hh.2⟩
  · show rangeInv (saveGrid g lm (frameData g p15 p16 now mir) now a)
    have hL : optInRange g.count (frameData g p15 p16 now mir).leftActive := by
      intro n hn
      rw [frameData_leftActive] at hn
      have hh := hitIndex_range g.yList g.hitRadius _ _ g.leftX n hn
      exact ⟨hh.1, by rw [← h.2.1]; exact hh.2⟩
    have hR : optInRange g.count (frameData g p15 p16 now mir).rightActive := by
      intro n hn
      rw [frameData_rightActive] at hn
      have hh := hitIndex_range g.yList g.hitRadius _ _ g.rightX n hn
      exact ⟨hh.1, by rw [← h.2.1]; exact hh.2⟩
    refine rangeInv_saveGrid g lm (frameData g p15 p16 now mir) now a
      (rangeInv_trackGrid g lm (frameData g p15 p16 now mir) now h hL hR) ?_
    cases hst : g.step with
    | left =>
        simp only [activeFor, hst] at ha
        exact hL a ha
    | right =>
        simp only [activeFor, hst] at ha
        exact hR a ha
    | done =>
        simp only [activeFor, hst] at ha
        exact hR a ha
  · show rangeInv (holdGrid g lm (frameData g p15 p16 now mir) now a)
    have hL : optInRange g.count (frameData g p15 p16 now mir).leftActive := by
      intro n hn
      rw [frameData_leftActive] at hn
      have hh := hitIndex_range g.yList g.hitRadius _ _ g.leftX n hn
      exact ⟨hh.1, by rw [← h.2.1]; exact hh.2⟩
    have hR : optInRange g.count (frameData g p15 p16 now mir).rightActive := by
      intro n hn
      rw [frameData_rightActive] at hn
      have hh := hitIndex_range g.yList g.hitRadius _ _ g.rightX n hn
      exact ⟨hh.1, by rw [← h.2.1]; exact hh.2⟩
    refine rangeInv_holdGrid g lm (frameData g p15 p16 now mir) now a
      (rangeInv_trackGrid g lm (frameData g p15 p16 now mir) now h hL hR) ?_
    cases hst : g.step with
    | left =>
        simp only [activeFor, hst] at ha
        exact hL a ha
    | right =>
        simp only [activeFor, hst] at ha
        exact hR a ha
    | done =>
        simp only [activeFor, hst] at ha
        exact hR a ha

theorem rangeInv_reachable (c : Config) (hc : 1 ≤ c.count) (g : Grid)
    (hr : Reachable (create c) g) : rangeInv g := by
  induction hr with
  | refl => exact rangeInv_create c hc
  | step g2 lm? now mir _ ih => exact rangeInv_update g2 lm? now mir ih

/-- Claim C10 (implicit invariant): in every session state reachable from
`create` on a configuration with at least one rung, each of `leftActive`,
`rightActive`, `leftSaved`, `rightSaved` and the two per-hand max-reach rung
indices is either absent or an integer in `1 .. count`. -/
theorem c10_ranges (c : Config) (g : Grid) (hc : 1 ≤ c.count)
    (hr : Reachable (create c) g) :
    optInRange g.count g.leftActive ∧ optInRange g.count g.rightActive ∧
    optInRange g.count g.leftSaved ∧ optInRange g.count g.rightSaved ∧
    optInRange g.count g.maxRungL ∧ optInRange g.count g.maxRungR ∧
    optInRange g.count g.candidate := by
  have h := rangeInv_reachable c hc g hr
  exact ⟨h.2.2.1, h.2.2.2.1, h.2.2.2.2.1, h.2.2.2.2.2.1, h.2.2.2.2.2.2.2.1,
    h.2.2.2.2.2.2.2.2, h.2.2.2.2.2.2.1⟩

theorem c10_witness :
    1 ≤ cfgA.count ∧ (∀ n, gA3.leftSaved = some n → 1 ≤ n ∧ n ≤ gA3.count) := by
  have hr : Reachable (create cfgA) gA3 :=
    Reachable.step gA2 (some lmHold) 1200 true
      (Reachable.step gA1 (some lmHold) 1100 true
        (Reachable.step gA0 (some lmHold) 1000 true Reachable.refl))
  have h := c10_ranges cfgA gA3 (by norm_num [cfgA]) hr
  exact ⟨by norm_num [cfgA], h.2.2.1⟩
